import Mathlib

/-!
Verification development for the VoxelWorld plugin (DavidJCottrell/Voxels).

The C++ sources under Plugins/VoxelWorld are shallowly embedded here:

* float arithmetic is idealised as exact rational arithmetic (ℚ); `float`
  literals such as 0.3f are read as the rational they denote;
* int32 values are embedded as ℤ (with explicit mod-2^32 wrapping where the
  source relies on wrap-around, namely in the seeded random stream);
* `TArray` data is embedded as a length plus an index-to-value function,
  `TMap` as an association list, object pointers as `Option` values;
* engine collaborators (`FRandomStream`, `FMath`, `FVector`) are embedded
  following their Unreal Engine semantics; `FMath::Sqrt` is modelled by the
  deterministic rational square-root approximation `Rat.sqrt`.

Sections follow the source files: math/type primitives (VoxelTypes.h),
noise (VoxelNoiseGenerator.cpp), terrain (VoxelTerrainGenerator.cpp),
chunks (VoxelChunk.cpp), greedy meshing (VoxelGreedyMesher.cpp) and the
world manager (VoxelWorldManager.cpp), followed by the theorems.
-/

namespace FMath

/-- FMath::Clamp for rationals: X < Min gives Min, X > Max gives Max. -/
def Clamp (x lo hi : ℚ) : ℚ := if x < lo then lo else if x > hi then hi else x

/-- FMath::Lerp: A + Alpha * (B - A). -/
def Lerp (a b t : ℚ) : ℚ := a + t * (b - a)

/-- FMath::SmoothStep(A, B, X): 0 below A, 1 at or above B, cubic hermite between. -/
def SmoothStep (a b x : ℚ) : ℚ :=
  if x < a then 0
  else if x ≥ b then 1
  else
    let t := (x - a) / (b - a)
    t * t * (3 - 2 * t)

/-- FMath::Sign for floats: +1, -1 or 0. -/
def Sign (x : ℚ) : ℚ := if 0 < x then 1 else if x < 0 then -1 else 0

/-- FMath::FloorToInt. -/
def FloorToInt (x : ℚ) : ℤ := ⌊x⌋

/-- FMath::FloorToFloat. -/
def FloorToFloat (x : ℚ) : ℚ := (⌊x⌋ : ℚ)

/-- FMath::CeilToInt. -/
def CeilToInt (x : ℚ) : ℤ := ⌈x⌉

/-- FMath::Square. -/
def Square (x : ℚ) : ℚ := x * x

/-- FMath::Sqrt, modelled by the deterministic rational approximation
Rat.sqrt (the claims settled here never depend on the numeric value of a
square root, only on it being a fixed pure function). -/
def Sqrt (x : ℚ) : ℚ := Rat.sqrt x

/-- MAX_FLT. -/
def MAX_FLT : ℚ := 34028234663852886 * 10 ^ 22

/-- SMALL_NUMBER (1.e-8f). -/
def SMALL_NUMBER : ℚ := 1 / 10 ^ 8

end FMath

/-- EVoxelType from VoxelTypes.h. -/
inductive EVoxelType where
  | Air | Stone | Dirt | Grass | Sand | Water | Snow | Bedrock
  | Gravel | Clay | Ice | Lava | PlateauStone | DarkStone | RedRock
  deriving DecidableEq, Repr

/-- EVoxelLOD from VoxelTypes.h. -/
inductive EVoxelLOD where
  | LOD0 | LOD1 | LOD2 | LOD3 | Culled
  deriving DecidableEq, Repr

/-- EChunkState from VoxelTypes.h. -/
inductive EChunkState where
  | Unloaded | Loading | Generated | Meshed | PendingUnload
  deriving DecidableEq, Repr

/-- EBiomeType from VoxelTypes.h. -/
inductive EBiomeType where
  | Plains | Desert | Mountains | Forest | Tundra | Ocean | Swamp
  | Plateau | DeepValley | Canyon | Badlands | HighlandPlains
  deriving DecidableEq, Repr

/-- FVoxel: voxel type, density byte and light level.  The C++ field Type is
named Ty here (Type is a Lean keyword).  The C++ constructor
FVoxel(InType, InDensity = 255) defaults the density byte to 255. -/
structure FVoxel where
  Ty : EVoxelType := EVoxelType.Air
  Density : ℕ := 0
  LightLevel : ℕ := 0
  deriving DecidableEq, Repr

/-- The FVoxel(EVoxelType, uint8 = 255) constructor. -/
def FVoxel.make (t : EVoxelType) (d : ℕ := 255) : FVoxel :=
  { Ty := t, Density := d, LightLevel := 0 }

/-- FVoxel::IsSolid: not Air and not Water. -/
def FVoxel.IsSolid (v : FVoxel) : Bool :=
  v.Ty ≠ EVoxelType.Air ∧ v.Ty ≠ EVoxelType.Water

/-- FVoxel::IsTransparent: Air, Water or Ice. -/
def FVoxel.IsTransparent (v : FVoxel) : Bool :=
  v.Ty = EVoxelType.Air ∨ v.Ty = EVoxelType.Water ∨ v.Ty = EVoxelType.Ice

/-- FChunkCoord: integer chunk coordinate. -/
structure FChunkCoord where
  X : ℤ := 0
  Y : ℤ := 0
  Z : ℤ := 0
  deriving DecidableEq, Repr

/-- FBiomeSettings with its header defaults. -/
structure FBiomeSettings where
  BiomeScale : ℚ := 2 / 1000
  PlateauHeight : ℤ := 60
  PlateauFlatness : ℚ := 85 / 100
  ValleyDepth : ℤ := 40
  CliffSteepness : ℚ := 5 / 2
  BiomeBlendDistance : ℤ := 20
  bEnablePlateaus : Bool := true
  bEnableValleys : Bool := true
  bEnableCanyons : Bool := true
  deriving Repr

/-- FVoxelLODSettings with its header defaults. -/
structure FVoxelLODSettings where
  LOD0Distance : ℤ := 4
  LOD1Distance : ℤ := 12
  LOD2Distance : ℤ := 28
  LOD3Distance : ℤ := 48
  CollisionDistance : ℤ := 3
  deriving Repr

/-- FVoxelLODSettings::GetLODForDistance. -/
def FVoxelLODSettings.GetLODForDistance (s : FVoxelLODSettings) (d : ℚ) : EVoxelLOD :=
  if d ≤ (s.LOD0Distance : ℚ) then EVoxelLOD.LOD0
  else if d ≤ (s.LOD1Distance : ℚ) then EVoxelLOD.LOD1
  else if d ≤ (s.LOD2Distance : ℚ) then EVoxelLOD.LOD2
  else if d ≤ (s.LOD3Distance : ℚ) then EVoxelLOD.LOD3
  else EVoxelLOD.LOD3

/-- FVoxelLODSettings::GetStepSizeForLOD. -/
def FVoxelLODSettings.GetStepSizeForLOD (lod : EVoxelLOD) : ℤ :=
  match lod with
  | EVoxelLOD.LOD0 => 1
  | EVoxelLOD.LOD1 => 2
  | EVoxelLOD.LOD2 => 4
  | EVoxelLOD.LOD3 => 8
  | _ => 8

/-- FVoxelLODSettings::ShouldHaveCollision. -/
def FVoxelLODSettings.ShouldHaveCollision (s : FVoxelLODSettings) (d : ℚ) : Bool :=
  d ≤ (s.CollisionDistance : ℚ)

/-- FVoxelWorldSettings with its header defaults. -/
structure FVoxelWorldSettings where
  ChunkSize : ℤ := 32
  VoxelSize : ℚ := 100
  RenderDistance : ℤ := 64
  WorldHeightChunks : ℤ := 16
  Seed : ℤ := 12345
  BaseTerrainHeight : ℤ := 96
  TerrainAmplitude : ℤ := 32
  NoiseFrequency : ℚ := 1 / 100
  NoiseOctaves : ℕ := 4
  bGenerateCaves : Bool := true
  CaveThreshold : ℚ := 1 / 2
  TerrainSmoothness : ℚ := 1 / 2
  BiomeSettings : FBiomeSettings := {}
  LODSettings : FVoxelLODSettings := {}
  bAsyncGeneration : Bool := true
  bAsyncCollisionCooking : Bool := true
  ChunksPerFrame : ℕ := 8
  MeshBuildsPerFrame : ℕ := 6
  bEnableChunkPooling : Bool := true
  ChunkPoolSize : ℕ := 64
  bDeduplicateVertices : Bool := true
  DataUnloadDistance : ℤ := 16
  bSkipEmptyChunks : Bool := true
  bPrioritizeViewDirection : Bool := true
  deriving Repr

/-! ### FRandomStream (engine collaborator used by UVoxelNoiseGenerator::Initialize)

The Unreal Engine random stream is a 32-bit LCG.  GetFraction() mutates the
seed and returns ((Seed >> 9) | 0x3F800000 read as a float) - 1, i.e. the top
23 bits of the new seed divided by 2^23.  RandHelper(A) truncates
GetFraction() * float(A); the single-precision rounding of that product is
modelled exactly by rounding the integer numerator to 24 significant bits,
round-to-nearest, ties-to-even. -/

namespace FRandomStream

/-- Seed = Seed * 196314165 + 907633515 on 32 bits. -/
def MutateSeed (s : ℕ) : ℕ := (s * 196314165 + 907633515) % 4294967296

/-- Position of the leading bit, minus 23, for numbers of up to 31 bits that
are at least 2^24 (the exponent by which a 24-bit significand is shifted). -/
def sigShift (n : ℕ) : ℕ :=
  if n < 33554432 then 1
  else if n < 67108864 then 2
  else if n < 134217728 then 3
  else if n < 268435456 then 4
  else if n < 536870912 then 5
  else if n < 1073741824 then 6
  else 7

/-- Round an integer of up to 31 bits to 24 significant bits,
round-to-nearest, ties-to-even: the value of the float32 product m*A when
the exact product is n = m*A < 2^31. -/
def roundSig24 (n : ℕ) : ℕ :=
  if n < 16777216 then n
  else
    let k := sigShift n
    let q := n / 2 ^ k
    let r := n % 2 ^ k
    let half := 2 ^ (k - 1)
    let q2 := if half < r ∨ (r = half ∧ q % 2 = 1) then q + 1 else q
    q2 * 2 ^ k

/-- RandHelper(A) = Min(TruncToInt(GetFraction() * A), A - 1), returning the
mutated seed and the result.  GetFraction() = m / 2^23 with m the top 23 bits
of the mutated seed, so TruncToInt(float(m/2^23 * A)) = roundSig24(m*A) / 2^23. -/
def RandHelper (s A : ℕ) : ℕ × ℕ :=
  let s2 := MutateSeed s
  let m := s2 / 512
  let t := roundSig24 (m * A) / 8388608
  (s2, min t (A - 1))

/-- RandRange(Min, Max) for the 0-based case used by the shuffle:
RandRange(0, i) = RandHelper(i + 1). -/
def RandRange0 (s i : ℕ) : ℕ × ℕ := RandHelper s (i + 1)

end FRandomStream

/-! ### UVoxelNoiseGenerator (VoxelNoiseGenerator.cpp) -/

/-- The noise generator state: its permutation table.  The C++ table has 512
entries, the first 256 shuffled by the seed and the second 256 a copy; it is
embedded as an index-to-value function that is queried modulo 256, which is
exactly the content of the duplicated table at every index below 512 (all
indices used by the noise functions are below 512). -/
structure UVoxelNoiseGenerator where
  Permutation : ℕ → ℕ

namespace UVoxelNoiseGenerator

/-- One Fisher-Yates step of UVoxelNoiseGenerator::Initialize:
j = RandomStream.RandRange(0, i), then Swap(BasePermutation[i], BasePermutation[j]).
The array is embedded as a function, a swap as a pointwise update. -/
def shuffleStep (st : ℕ × (ℕ → ℕ)) (i : ℕ) : ℕ × (ℕ → ℕ) :=
  let p := FRandomStream.RandRange0 st.1 i
  let f := st.2
  (p.1, fun x => if x = i then f p.2 else if x = p.2 then f i else f x)

/-- UVoxelNoiseGenerator::Initialize(Seed): BasePermutation[i] = i, then the
Fisher-Yates shuffle for i = 255 down to 1 driven by FRandomStream(Seed),
then the table is duplicated (realised here by the mod-256 lookup). -/
def Initialize (Seed : ℤ) : UVoxelNoiseGenerator :=
  let s0 := (Seed % 4294967296).toNat
  let base := ((List.range 255).foldl (fun st k => shuffleStep st (255 - k)) (s0, fun x => x)).2
  { Permutation := fun i => base (i % 256) }

/-- Fade(T) = T*T*T*(T*(T*6 - 15) + 10). -/
def Fade (t : ℚ) : ℚ := t * t * t * (t * (t * 6 - 15) + 10)

/-- Lerp(A, B, T) = A + T*(B - A). -/
def Lerp (a b t : ℚ) : ℚ := a + t * (b - a)

/-- Gradient2D(Hash, X, Y): H = Hash & 7; U/V select X or Y; the result is
(+-U) + (+-2V) by the low two bits of H. -/
def Gradient2D (hash : ℕ) (x y : ℚ) : ℚ :=
  let H := hash % 8
  let U := if H < 4 then x else y
  let V := if H < 4 then y else x
  (if H % 2 = 1 then -U else U) + (if H / 2 % 2 = 1 then -(2 * V) else 2 * V)

/-- The static GradientVectors3D table (16 integer vectors). -/
def GradientVectors3D (i : ℕ) : ℤ × ℤ × ℤ :=
  match i % 16 with
  | 0 => (1, 1, 0)   | 1 => (-1, 1, 0)  | 2 => (1, -1, 0)  | 3 => (-1, -1, 0)
  | 4 => (1, 0, 1)   | 5 => (-1, 0, 1)  | 6 => (1, 0, -1)  | 7 => (-1, 0, -1)
  | 8 => (0, 1, 1)   | 9 => (0, -1, 1)  | 10 => (0, 1, -1) | 11 => (0, -1, -1)
  | 12 => (1, 1, 0)  | 13 => (-1, 1, 0) | 14 => (0, -1, 1) | _ => (0, -1, -1)

/-- Gradient3D(Hash, X, Y, Z) = GradientVectors3D[Hash & 15] . (X, Y, Z). -/
def Gradient3D (hash : ℕ) (x y z : ℚ) : ℚ :=
  let g := GradientVectors3D (hash % 16)
  (g.1 : ℚ) * x + (g.2.1 : ℚ) * y + (g.2.2 : ℚ) * z

/-- FloorToInt(X) & 255 for an int32 floor: two's-complement masking is
mod 256. -/
def floorMask255 (x : ℚ) : ℕ := ((⌊x⌋ % 256).toNat)

/-- UVoxelNoiseGenerator::GetNoise2D. -/
def GetNoise2D (g : UVoxelNoiseGenerator) (x y : ℚ) : ℚ :=
  let X0 := floorMask255 x
  let Y0 := floorMask255 y
  let X1 := (X0 + 1) % 256
  let Y1 := (Y0 + 1) % 256
  let XF := x - FMath.FloorToFloat x
  let YF := y - FMath.FloorToFloat y
  let U := Fade XF
  let V := Fade YF
  let AA := g.Permutation (g.Permutation X0 + Y0)
  let AB := g.Permutation (g.Permutation X0 + Y1)
  let BA := g.Permutation (g.Permutation X1 + Y0)
  let BB := g.Permutation (g.Permutation X1 + Y1)
  let Result := Lerp
    (Lerp (Gradient2D AA XF YF) (Gradient2D BA (XF - 1) YF) U)
    (Lerp (Gradient2D AB XF (YF - 1)) (Gradient2D BB (XF - 1) (YF - 1)) U)
    V
  (Result + 1) * (1 / 2)

/-- UVoxelNoiseGenerator::GetNoise3D. -/
def GetNoise3D (g : UVoxelNoiseGenerator) (x y z : ℚ) : ℚ :=
  let X0 := floorMask255 x
  let Y0 := floorMask255 y
  let Z0 := floorMask255 z
  let X1 := (X0 + 1) % 256
  let Y1 := (Y0 + 1) % 256
  let Z1 := (Z0 + 1) % 256
  let XF := x - FMath.FloorToFloat x
  let YF := y - FMath.FloorToFloat y
  let ZF := z - FMath.FloorToFloat z
  let U := Fade XF
  let V := Fade YF
  let W := Fade ZF
  let A := g.Permutation X0 + Y0
  let AA := g.Permutation A + Z0
  let AB := g.Permutation (A + 1) + Z0
  let B := g.Permutation X1 + Y0
  let BA := g.Permutation B + Z0
  let BB := g.Permutation (B + 1) + Z0
  let Result := Lerp
    (Lerp
      (Lerp (Gradient3D (g.Permutation AA) XF YF ZF)
            (Gradient3D (g.Permutation BA) (XF - 1) YF ZF) U)
      (Lerp (Gradient3D (g.Permutation AB) XF (YF - 1) ZF)
            (Gradient3D (g.Permutation BB) (XF - 1) (YF - 1) ZF) U)
      V)
    (Lerp
      (Lerp (Gradient3D (g.Permutation (AA + 1)) XF YF (ZF - 1))
            (Gradient3D (g.Permutation (BA + 1)) (XF - 1) YF (ZF - 1)) U)
      (Lerp (Gradient3D (g.Permutation (AB + 1)) XF (YF - 1) (ZF - 1))
            (Gradient3D (g.Permutation (BB + 1)) (XF - 1) (YF - 1) (ZF - 1)) U)
      V)
    W
  (Result + 1) * (1 / 2)

/-- The octave accumulator shared by the fractal variants: state is
(Total, Frequency, Amplitude, MaxValue), one step adds f(Frequency) * Amplitude
to Total and Amplitude to MaxValue, then scales Amplitude by Persistence and
Frequency by Lacunarity. -/
def octaveAcc (f : ℚ → ℚ) (persistence lacunarity : ℚ) (n : ℕ) : ℚ × ℚ × ℚ × ℚ :=
  (List.range n).foldl
    (fun st _ =>
      let total := st.1; let freq := st.2.1; let amp := st.2.2.1; let maxv := st.2.2.2
      (total + f freq * amp, freq * lacunarity, amp * persistence, maxv + amp))
    (0, 1, 1, 0)

/-- UVoxelNoiseGenerator::GetFractalNoise2D.  Octaves is int32 in the source;
non-positive octave counts run zero iterations (giving 0/0, i.e. NaN in C++;
0 in ℚ). -/
def GetFractalNoise2D (g : UVoxelNoiseGenerator) (x y : ℚ) (octaves : ℕ)
    (persistence lacunarity : ℚ) : ℚ :=
  let st := octaveAcc (fun freq => g.GetNoise2D (x * freq) (y * freq)) persistence lacunarity octaves
  st.1 / st.2.2.2

/-- UVoxelNoiseGenerator::GetFractalNoise3D. -/
def GetFractalNoise3D (g : UVoxelNoiseGenerator) (x y z : ℚ) (octaves : ℕ)
    (persistence lacunarity : ℚ) : ℚ :=
  let st := octaveAcc (fun freq => g.GetNoise3D (x * freq) (y * freq) (z * freq))
    persistence lacunarity octaves
  st.1 / st.2.2.2

/-- UVoxelNoiseGenerator::GetRidgedNoise2D: per octave 1 - |2n - 1| squared. -/
def GetRidgedNoise2D (g : UVoxelNoiseGenerator) (x y : ℚ) (octaves : ℕ)
    (persistence lacunarity : ℚ) : ℚ :=
  let st := octaveAcc
    (fun freq =>
      let n := g.GetNoise2D (x * freq) (y * freq)
      let n1 := 1 - |n * 2 - 1|
      n1 * n1)
    persistence lacunarity octaves
  st.1 / st.2.2.2

/-- UVoxelNoiseGenerator::GetBillowNoise2D: per octave |2n - 1|. -/
def GetBillowNoise2D (g : UVoxelNoiseGenerator) (x y : ℚ) (octaves : ℕ)
    (persistence lacunarity : ℚ) : ℚ :=
  let st := octaveAcc
    (fun freq => |g.GetNoise2D (x * freq) (y * freq) * 2 - 1|)
    persistence lacunarity octaves
  st.1 / st.2.2.2

/-- One candidate update of UVoxelNoiseGenerator::GetVoronoiNoise2D for the
cell at offset (ox, oy): hash the neighbour cell, build the feature point and
keep it when strictly closer.  State is (MinDist, OutCellX, OutCellY). -/
def voronoiCandidate (g : UVoxelNoiseGenerator) (x y : ℚ) (cx cy : ℤ)
    (st : ℚ × ℚ × ℚ) (off : ℤ × ℤ) : ℚ × ℚ × ℚ :=
  let nx := cx + off.1
  let ny := cy + off.2
  let h1 := g.Permutation (((g.Permutation ((nx % 256).toNat) : ℤ) + ny) % 256).toNat
  let px := (nx : ℚ) + (h1 % 256 : ℕ) / 255
  let h2 := g.Permutation ((h1 + 1) % 256)
  let py := (ny : ℚ) + (h2 % 256 : ℕ) / 255
  let dist := FMath.Square (x - px) + FMath.Square (y - py)
  if dist < st.1 then (dist, px, py) else st

/-- UVoxelNoiseGenerator::GetVoronoiNoise2D: scan the 3x3 neighbourhood in
source order (OffsetY outer, OffsetX inner) and return
(Sqrt MinDist, OutCellX, OutCellY). -/
def GetVoronoiNoise2D (g : UVoxelNoiseGenerator) (x y : ℚ) : ℚ × ℚ × ℚ :=
  let cx := FMath.FloorToInt x
  let cy := FMath.FloorToInt y
  let offs : List (ℤ × ℤ) :=
    [(-1, -1), (0, -1), (1, -1), (-1, 0), (0, 0), (1, 0), (-1, 1), (0, 1), (1, 1)]
  let st := offs.foldl (voronoiCandidate g x y cx cy) (FMath.MAX_FLT, 0, 0)
  (FMath.Sqrt st.1, st.2.1, st.2.2)

end UVoxelNoiseGenerator

/-! ### UVoxelTerrainGenerator (VoxelTerrainGenerator.cpp) -/

/-- The terrain generator: cached settings plus the owned noise generator
(nullptr until Initialize is called, hence Option). -/
structure UVoxelTerrainGenerator where
  WorldSettings : FVoxelWorldSettings
  NoiseGenerator : Option UVoxelNoiseGenerator

namespace UVoxelTerrainGenerator

/-- UVoxelTerrainGenerator::Initialize(Settings): store the settings and
create a noise generator seeded with Settings.Seed. -/
def Initialize (Settings : FVoxelWorldSettings) : UVoxelTerrainGenerator :=
  { WorldSettings := Settings
    NoiseGenerator := some (UVoxelNoiseGenerator.Initialize Settings.Seed) }

/-- UVoxelTerrainGenerator::GetPlateauInfluence. -/
def GetPlateauInfluence (g : UVoxelTerrainGenerator) (WorldX WorldY : ℤ) : ℚ :=
  match g.NoiseGenerator with
  | none => 0
  | some ng =>
    if !g.WorldSettings.BiomeSettings.bEnablePlateaus then 0
    else
      let BiomeScale := g.WorldSettings.BiomeSettings.BiomeScale
      let vor := ng.GetVoronoiNoise2D (WorldX * BiomeScale * (1/2)) (WorldY * BiomeScale * (1/2))
      let VoronoiDist := vor.1
      let PlateauNoise := ng.GetFractalNoise2D
        (WorldX * BiomeScale + 10000) (WorldY * BiomeScale + 10000) 2 (1/2) 2
      let PlateauFactor := PlateauNoise
      if PlateauFactor > 55/100 then
        let Influence := FMath.SmoothStep (55/100) (65/100) PlateauFactor
        let EdgeFalloff := FMath.Clamp (VoronoiDist * 3) 0 1
        Influence * EdgeFalloff
      else 0

/-- UVoxelTerrainGenerator::GetValleyInfluence. -/
def GetValleyInfluence (g : UVoxelTerrainGenerator) (WorldX WorldY : ℤ) : ℚ :=
  match g.NoiseGenerator with
  | none => 0
  | some ng =>
    if !g.WorldSettings.BiomeSettings.bEnableValleys then 0
    else
      let BiomeScale := g.WorldSettings.BiomeSettings.BiomeScale
      let ValleyNoise := ng.GetRidgedNoise2D
        (WorldX * BiomeScale * (3/2) + 20000) (WorldY * BiomeScale * (3/2) + 20000) 3 (1/2) 2
      let ValleyVar := ng.GetFractalNoise2D
        (WorldX * BiomeScale * 3 + 25000) (WorldY * BiomeScale * 3 + 25000) 2 (1/2) 2
      let ValleyFactor := 1 - ValleyNoise
      if ValleyFactor > 6/10 then
        let Influence := FMath.SmoothStep (6/10) (8/10) ValleyFactor
        Influence * FMath.Lerp (6/10) 1 ValleyVar
      else 0

/-- UVoxelTerrainGenerator::GetCanyonInfluence. -/
def GetCanyonInfluence (g : UVoxelTerrainGenerator) (WorldX WorldY : ℤ) : ℚ :=
  match g.NoiseGenerator with
  | none => 0
  | some ng =>
    if !g.WorldSettings.BiomeSettings.bEnableCanyons then 0
    else
      let BiomeScale := g.WorldSettings.BiomeSettings.BiomeScale
      let WarpX := ng.GetFractalNoise2D
        (WorldX * BiomeScale * 2 + 30000) (WorldY * BiomeScale * 2 + 30000) 2 (1/2) 2 * 50
      let WarpY := ng.GetFractalNoise2D
        (WorldX * BiomeScale * 2 + 35000) (WorldY * BiomeScale * 2 + 35000) 2 (1/2) 2 * 50
      let CanyonNoise := ng.GetRidgedNoise2D
        ((WorldX + WarpX) * BiomeScale * 4) ((WorldY + WarpY) * BiomeScale * 4) 2 (6/10) 2
      if CanyonNoise > 85/100 then FMath.SmoothStep (85/100) (95/100) CanyonNoise
      else 0

/-- UVoxelTerrainGenerator::GetContinentalness. -/
def GetContinentalness (g : UVoxelTerrainGenerator) (WorldX WorldY : ℤ) : ℚ :=
  match g.NoiseGenerator with
  | none => 1/2
  | some ng =>
    let Frequency := g.WorldSettings.NoiseFrequency * (3/10)
    ng.GetFractalNoise2D (WorldX * Frequency) (WorldY * Frequency) 3 (1/2) 2

/-- UVoxelTerrainGenerator::GetErosion. -/
def GetErosion (g : UVoxelTerrainGenerator) (WorldX WorldY : ℤ) : ℚ :=
  match g.NoiseGenerator with
  | none => 1/2
  | some ng =>
    let Frequency := g.WorldSettings.NoiseFrequency * (1/2)
    ng.GetFractalNoise2D (WorldX * Frequency + 1000) (WorldY * Frequency + 1000) 4 (1/2) 2

/-- UVoxelTerrainGenerator::GetPeaksValleys. -/
def GetPeaksValleys (g : UVoxelTerrainGenerator) (WorldX WorldY : ℤ) : ℚ :=
  match g.NoiseGenerator with
  | none => 1/2
  | some ng =>
    let Frequency := g.WorldSettings.NoiseFrequency * 2
    ng.GetRidgedNoise2D (WorldX * Frequency + 2000) (WorldY * Frequency + 2000) 4 (1/2) 2

/-- UVoxelTerrainGenerator::GetTemperature. -/
def GetTemperature (g : UVoxelTerrainGenerator) (WorldX WorldY : ℤ) : ℚ :=
  match g.NoiseGenerator with
  | none => 1/2
  | some ng =>
    let Frequency := g.WorldSettings.NoiseFrequency * (2/10)
    ng.GetFractalNoise2D (WorldX * Frequency + 5000) (WorldY * Frequency + 5000) 2 (1/2) 2

/-- UVoxelTerrainGenerator::GetMoisture. -/
def GetMoisture (g : UVoxelTerrainGenerator) (WorldX WorldY : ℤ) : ℚ :=
  match g.NoiseGenerator with
  | none => 1/2
  | some ng =>
    let Frequency := g.WorldSettings.NoiseFrequency * (25/100)
    ng.GetFractalNoise2D (WorldX * Frequency + 7000) (WorldY * Frequency + 7000) 2 (1/2) 2

/-- UVoxelTerrainGenerator::Get3DTerrainVariation. -/
def Get3DTerrainVariation (g : UVoxelTerrainGenerator) (WorldX WorldY WorldZ : ℤ) : ℚ :=
  match g.NoiseGenerator with
  | none => 0
  | some ng =>
    let Frequency := g.WorldSettings.NoiseFrequency * (3/2)
    let Variation := ng.GetFractalNoise3D
      (WorldX * Frequency + 4000) (WorldY * Frequency + 4000) (WorldZ * Frequency + 4000)
      3 (1/2) 2
    (Variation - 1/2) * 8

/-- UVoxelTerrainGenerator::GetBiome: the climate/feature decision table. -/
def GetBiome (g : UVoxelTerrainGenerator) (WorldX WorldY : ℤ) : EBiomeType :=
  let Temperature := g.GetTemperature WorldX WorldY
  let Moisture := g.GetMoisture WorldX WorldY
  let Continentalness := g.GetContinentalness WorldX WorldY
  let PlateauInf := g.GetPlateauInfluence WorldX WorldY
  let ValleyInf := g.GetValleyInfluence WorldX WorldY
  if PlateauInf > 6/10 then
    if Temperature < 3/10 then EBiomeType.Tundra else EBiomeType.HighlandPlains
  else if ValleyInf > 6/10 then EBiomeType.DeepValley
  else if Continentalness < 3/10 then EBiomeType.Ocean
  else if Temperature < 25/100 then EBiomeType.Tundra
  else if Temperature > 75/100 ∧ Moisture < 3/10 then
    (if g.GetErosion WorldX WorldY < 4/10 then EBiomeType.Badlands else EBiomeType.Desert)
  else if Temperature > 75/100 ∧ Moisture > 7/10 then EBiomeType.Swamp
  else if g.GetErosion WorldX WorldY < 3/10 then EBiomeType.Mountains
  else if Moisture > 1/2 then EBiomeType.Forest
  else EBiomeType.Plains

/-- UVoxelTerrainGenerator::GetTerrainFeature. -/
def GetTerrainFeature (g : UVoxelTerrainGenerator) (WorldX WorldY : ℤ) : EBiomeType :=
  let PlateauInf := g.GetPlateauInfluence WorldX WorldY
  let ValleyInf := g.GetValleyInfluence WorldX WorldY
  let CanyonInf := g.GetCanyonInfluence WorldX WorldY
  if CanyonInf > 1/2 then EBiomeType.Canyon
  else if ValleyInf > 1/2 then EBiomeType.DeepValley
  else if PlateauInf > 1/2 then EBiomeType.Plateau
  else g.GetBiome WorldX WorldY

/-- UVoxelTerrainGenerator::GetFeatureHeight. -/
def GetFeatureHeight (g : UVoxelTerrainGenerator) (WorldX WorldY : ℤ) : ℚ :=
  let PlateauInf := g.GetPlateauInfluence WorldX WorldY
  let ValleyInf := g.GetValleyInfluence WorldX WorldY
  let CanyonInf := g.GetCanyonInfluence WorldX WorldY
  let h0 : ℚ := 0
  let h1 := if PlateauInf > 0 then
      h0 + PlateauInf * (g.WorldSettings.BiomeSettings.PlateauHeight : ℚ)
    else h0
  let h2 := if ValleyInf > 0 then
      h1 + ValleyInf * (-(g.WorldSettings.BiomeSettings.ValleyDepth : ℚ))
    else h1
  if CanyonInf > 0 then
    h2 + CanyonInf * (-(g.WorldSettings.BiomeSettings.ValleyDepth : ℚ) * (3/2))
  else h2

/-- UVoxelTerrainGenerator::GetTerrainHeight. -/
def GetTerrainHeight (g : UVoxelTerrainGenerator) (WorldX WorldY : ℤ) : ℚ :=
  match g.NoiseGenerator with
  | none => (g.WorldSettings.BaseTerrainHeight : ℚ)
  | some ng =>
    let Continentalness := g.GetContinentalness WorldX WorldY
    let Erosion := g.GetErosion WorldX WorldY
    let PeaksValleys := g.GetPeaksValleys WorldX WorldY
    let BaseHeight := (g.WorldSettings.BaseTerrainHeight : ℚ)
    let ContinentHeight := FMath.Lerp (-20) 20 Continentalness
    let ErosionMultiplier := FMath.Lerp (3/10) 1 (1 - Erosion)
    let TerrainVariation :=
      (PeaksValleys - 1/2) * (g.WorldSettings.TerrainAmplitude : ℚ) * ErosionMultiplier
    let DetailNoise := ng.GetFractalNoise2D
      (WorldX * g.WorldSettings.NoiseFrequency * 4) (WorldY * g.WorldSettings.NoiseFrequency * 4)
      g.WorldSettings.NoiseOctaves (1/2) 2
    let DetailVariation := (DetailNoise - 1/2) * 8
    let FinalHeight := BaseHeight + ContinentHeight + TerrainVariation + DetailVariation
    let FinalHeight := FinalHeight + g.GetFeatureHeight WorldX WorldY
    let PlateauInf := g.GetPlateauInfluence WorldX WorldY
    if PlateauInf > 1/2 then
      let Flatness := g.WorldSettings.BiomeSettings.PlateauFlatness
      let PlateauTop := BaseHeight + (g.WorldSettings.BiomeSettings.PlateauHeight : ℚ)
      let FlattenedHeight := FMath.Lerp FinalHeight PlateauTop (Flatness * PlateauInf)
      let TopVariation := ng.GetFractalNoise2D
        (WorldX * g.WorldSettings.NoiseFrequency * 8 + 15000)
        (WorldY * g.WorldSettings.NoiseFrequency * 8 + 15000) 2 (1/2) 2
      FlattenedHeight + (TopVariation - 1/2) * 3 * (1 - Flatness)
    else FinalHeight

/-- UVoxelTerrainGenerator::GetCaveDensity. -/
def GetCaveDensity (g : UVoxelTerrainGenerator) (WorldX WorldY WorldZ : ℤ) : ℚ :=
  match g.NoiseGenerator with
  | none => -1
  | some ng =>
    if !g.WorldSettings.bGenerateCaves then -1
    else
      let TerrainHeight := g.GetTerrainHeight WorldX WorldY
      if (WorldZ : ℚ) > TerrainHeight - 5 ∨ WorldZ < 3 then -1
      else if g.GetPlateauInfluence WorldX WorldY > 7/10 then -1
      else
        let CaveFrequency := g.WorldSettings.NoiseFrequency * 3
        let CaveNoise := ng.GetFractalNoise3D
          (WorldX * CaveFrequency) (WorldY * CaveFrequency) (WorldZ * CaveFrequency) 3 (1/2) 2
        let CaveNoise2 := ng.GetFractalNoise3D
          (WorldX * CaveFrequency * (1/2) + 3000) (WorldY * CaveFrequency * (1/2) + 3000)
          (WorldZ * CaveFrequency * (1/2) + 3000) 2 (1/2) 2
        let CombinedNoise := (CaveNoise + CaveNoise2) * (1/2)
        let DepthFactor := 1 - (WorldZ : ℚ) / TerrainHeight
        let AdjustedThreshold := g.WorldSettings.CaveThreshold - DepthFactor * (1/10)
        let ValleyInf := g.GetValleyInfluence WorldX WorldY
        let AdjustedThreshold :=
          if ValleyInf > 3/10 then AdjustedThreshold - (1/10) * ValleyInf else AdjustedThreshold
        (CombinedNoise - AdjustedThreshold) * 5

/-- UVoxelTerrainGenerator::IsCave. -/
def IsCave (g : UVoxelTerrainGenerator) (WorldX WorldY WorldZ : ℤ) : Bool :=
  g.GetCaveDensity WorldX WorldY WorldZ > 0

/-- The final two steps of UVoxelTerrainGenerator::GetDensity: the
minimum-solid-thickness clamp (FIX 4, with MinSolidThickness = 0.05) applied
to the raw density, followed by the normalisation Clamp(d / 5, -1, 1). -/
def densityFinalize (d : ℚ) : ℚ :=
  let MinSolidThickness : ℚ := 5/100
  let d4 := if d < 0 ∧ d > -MinSolidThickness then -MinSolidThickness else d
  FMath.Clamp (d4 / 5) (-1) 1

/-- UVoxelTerrainGenerator::GetDensity.  The water-handling block in the
source computes a local WaterLevel and never uses it (dead code); it is
omitted here.  The biome lookup feeding only that block is likewise dead. -/
def GetDensity (g : UVoxelTerrainGenerator) (WorldX WorldY WorldZ : ℤ) : ℚ :=
  let TerrainHeight := g.GetTerrainHeight WorldX WorldY
  let TerrainDensity := (WorldZ : ℚ) - TerrainHeight
  -- FIX 1: 3D variation, only well below the surface
  let DepthFromSurface := TerrainHeight - (WorldZ : ℚ)
  let TerrainDensity :=
    if DepthFromSurface > 3 then
      let Variation3D := g.Get3DTerrainVariation WorldX WorldY WorldZ
      let VariationStrength := FMath.Clamp ((DepthFromSurface - 3) / 17) 0 1 * (1/2)
      if Variation3D < 0 then TerrainDensity + Variation3D * VariationStrength
      else if DepthFromSurface > 10 then
        TerrainDensity + Variation3D * VariationStrength * (1/2)
      else TerrainDensity
    else TerrainDensity
  -- FIX 2: additive plateau cliff steepening
  let PlateauInf := g.GetPlateauInfluence WorldX WorldY
  let TerrainDensity :=
    if PlateauInf > 1/10 ∧ PlateauInf < 9/10 then
      let CliffSteepness := g.WorldSettings.BiomeSettings.CliffSteepness
      let EdgeFactor := 1 - |PlateauInf - 1/2| * 2
      if EdgeFactor > 3/10 then
        let SteepnessAddition := CliffSteepness * EdgeFactor * FMath.Sign TerrainDensity
        if |TerrainDensity| > 1/10 then TerrainDensity + SteepnessAddition * (1/10)
        else TerrainDensity
      else TerrainDensity
    else TerrainDensity
  -- FIX 3: cave carving, only into clearly solid terrain
  let CaveSurfaceMargin : ℚ := 10
  let CaveDensityThreshold : ℚ := -(3/10)
  let TerrainDensity :=
    if g.WorldSettings.bGenerateCaves ∧ (WorldZ : ℚ) < TerrainHeight - CaveSurfaceMargin ∧
        WorldZ > 2 ∧ TerrainDensity < CaveDensityThreshold then
      let CaveDensity := g.GetCaveDensity WorldX WorldY WorldZ
      if CaveDensity > 0 then
        let CaveBlend := FMath.SmoothStep 0 (1/2) CaveDensity
        FMath.Lerp TerrainDensity CaveDensity CaveBlend
      else TerrainDensity
    else TerrainDensity
  -- bedrock layer
  let TerrainDensity :=
    if WorldZ ≤ 0 then -10
    else if WorldZ < 3 then
      let BedrockBlend := (3 - (WorldZ : ℚ)) / 3
      min TerrainDensity (FMath.Lerp TerrainDensity (-10) BedrockBlend)
    else TerrainDensity
  -- FIX 4 and normalisation
  densityFinalize TerrainDensity

/-- UVoxelTerrainGenerator::GetPlateauMaterial. -/
def GetPlateauMaterial (g : UVoxelTerrainGenerator) (WorldX WorldY WorldZ : ℤ)
    (TerrainHeight : ℚ) : EVoxelType :=
  let DepthFromSurface := TerrainHeight - (WorldZ : ℚ)
  let PlateauInf := g.GetPlateauInfluence WorldX WorldY
  if DepthFromSurface < 1 ∧ PlateauInf > 7/10 then
    if g.GetTemperature WorldX WorldY < 3/10 then EVoxelType.Snow else EVoxelType.Grass
  else if PlateauInf > 3/10 ∧ PlateauInf < 8/10 then EVoxelType.PlateauStone
  else if DepthFromSurface < 5 then EVoxelType.Dirt
  else EVoxelType.Stone

/-- UVoxelTerrainGenerator::GetValleyMaterial. -/
def GetValleyMaterial (g : UVoxelTerrainGenerator) (WorldX WorldY WorldZ : ℤ)
    (TerrainHeight : ℚ) : EVoxelType :=
  let DepthFromSurface := TerrainHeight - (WorldZ : ℚ)
  let ValleyInf := g.GetValleyInfluence WorldX WorldY
  let ValleyFloor := (g.WorldSettings.BaseTerrainHeight : ℚ) -
    (g.WorldSettings.BiomeSettings.ValleyDepth : ℚ) * ValleyInf
  if (WorldZ : ℚ) < ValleyFloor + 3 then
    if g.GetMoisture WorldX WorldY > 6/10 then EVoxelType.Clay else EVoxelType.Gravel
  else if DepthFromSurface < 2 then EVoxelType.DarkStone
  else EVoxelType.Stone

/-- UVoxelTerrainGenerator::GetSurfaceBlock. -/
def GetSurfaceBlock (g : UVoxelTerrainGenerator) (Biome : EBiomeType)
    (WorldX WorldY WorldZ : ℤ) (TerrainHeight : ℚ) : EVoxelType :=
  let DepthFromSurface := TerrainHeight - (WorldZ : ℚ)
  let PlateauInf := g.GetPlateauInfluence WorldX WorldY
  let ValleyInf := g.GetValleyInfluence WorldX WorldY
  let CanyonInf := g.GetCanyonInfluence WorldX WorldY
  if PlateauInf > 1/2 then g.GetPlateauMaterial WorldX WorldY WorldZ TerrainHeight
  else if ValleyInf > 1/2 ∨ CanyonInf > 1/2 then
    g.GetValleyMaterial WorldX WorldY WorldZ TerrainHeight
  else
    match Biome with
    | EBiomeType.Desert =>
      if DepthFromSurface < 4 then EVoxelType.Sand else EVoxelType.Stone
    | EBiomeType.Badlands =>
      if DepthFromSurface < 4 then EVoxelType.RedRock else EVoxelType.Stone
    | EBiomeType.Tundra =>
      if DepthFromSurface < 1 then EVoxelType.Snow
      else if DepthFromSurface < 3 then EVoxelType.Dirt
      else EVoxelType.Stone
    | EBiomeType.Mountains =>
      if TerrainHeight > (g.WorldSettings.BaseTerrainHeight : ℚ) + 20 ∧ DepthFromSurface < 1 then
        EVoxelType.Snow
      else EVoxelType.Stone
    | EBiomeType.Ocean =>
      if (WorldZ : ℚ) < (g.WorldSettings.BaseTerrainHeight : ℚ) - 10 then EVoxelType.Sand
      else if DepthFromSurface < 3 then EVoxelType.Sand
      else EVoxelType.Stone
    | EBiomeType.Swamp =>
      if DepthFromSurface < 1 then EVoxelType.Grass
      else if DepthFromSurface < 2 then EVoxelType.Clay
      else if DepthFromSurface < 4 then EVoxelType.Dirt
      else EVoxelType.Stone
    | EBiomeType.HighlandPlains =>
      if DepthFromSurface < 1 then EVoxelType.Grass
      else if DepthFromSurface < 3 then EVoxelType.Dirt
      else EVoxelType.Stone
    | _ =>
      if DepthFromSurface < 1 then EVoxelType.Grass
      else if DepthFromSurface < 4 then EVoxelType.Dirt
      else EVoxelType.Stone

/-- UVoxelTerrainGenerator::GetUndergroundBlock. -/
def GetUndergroundBlock (g : UVoxelTerrainGenerator) (WorldZ : ℤ) (TerrainHeight : ℚ)
    (Biome : EBiomeType) : EVoxelType :=
  if WorldZ ≤ 0 then EVoxelType.Bedrock
  else
    let bedrock : Bool :=
      decide (WorldZ < 3) &&
        match g.NoiseGenerator with
        | some ng => decide (ng.GetNoise2D (WorldZ * 10) (WorldZ * 10) > (3/10) * (WorldZ : ℚ))
        | none => false
    if bedrock then EVoxelType.Bedrock
    else
      let gravel : Bool :=
        match g.NoiseGenerator with
        | some ng => decide ((WorldZ : ℚ) < TerrainHeight - 10 ∧
            ng.GetNoise3D (WorldZ * (1/10)) (WorldZ * (1/10)) (WorldZ * (1/10)) > 8/10)
        | none => false
      if gravel then EVoxelType.Gravel
      else if Biome = EBiomeType.Plateau ∨ Biome = EBiomeType.Canyon then EVoxelType.DarkStone
      else EVoxelType.Stone

/-- UVoxelTerrainGenerator::GetVoxelType. -/
def GetVoxelType (g : UVoxelTerrainGenerator) (WorldX WorldY WorldZ : ℤ) : EVoxelType :=
  let TerrainHeight := g.GetTerrainHeight WorldX WorldY
  let Biome := g.GetBiome WorldX WorldY
  let Density := g.GetDensity WorldX WorldY WorldZ
  if Density > 0 then
    let WaterLevel :=
      if Biome = EBiomeType.DeepValley then
        (g.WorldSettings.BaseTerrainHeight : ℚ) -
          (g.WorldSettings.BiomeSettings.ValleyDepth : ℚ) * g.GetValleyInfluence WorldX WorldY + 5
      else (g.WorldSettings.BaseTerrainHeight : ℚ) - 5
    if (Biome = EBiomeType.Ocean ∨ Biome = EBiomeType.DeepValley) ∧ (WorldZ : ℚ) ≤ WaterLevel then
      EVoxelType.Water
    else EVoxelType.Air
  else if g.IsCave WorldX WorldY WorldZ then EVoxelType.Air
  else
    let DepthFromSurface := TerrainHeight - (WorldZ : ℚ)
    if DepthFromSurface < 5 then g.GetSurfaceBlock Biome WorldX WorldY WorldZ TerrainHeight
    else g.GetUndergroundBlock WorldZ TerrainHeight Biome

end UVoxelTerrainGenerator

/-! ### AVoxelChunk (VoxelChunk.cpp)

A TArray is embedded as its element count plus an index-to-value function;
TArray::SetNum value-initialises the new tail (0.0f for floats, Air for
EVoxelType).  The six neighbour weak pointers are not stored on the chunk
record; the neighbour-aware accessors below receive the six dereferenced
weak pointers as Option arguments (none = stale or never-wired link), which
is exactly what the source reads through TWeakObjectPtr::IsValid and
operator->. -/

structure TArrayData (α : Type) where
  Num : ℕ
  Get : ℕ → α

/-- TArray::SetNum: keep the existing prefix, value-initialise the rest. -/
def TArrayData.SetNum {α} (a : TArrayData α) (n : ℕ) (zero : α) : TArrayData α :=
  { Num := n, Get := fun i => if i < a.Num then a.Get i else zero }

/-- A single element write arr[i] = v. -/
def TArrayData.write {α} (a : TArrayData α) (i : ℕ) (v : α) : TArrayData α :=
  { Num := a.Num, Get := fun j => if j = i then v else a.Get j }

/-- FMemory::Memzero over the whole array. -/
def TArrayData.zeroAll {α} (a : TArrayData α) (zero : α) : TArrayData α :=
  { Num := a.Num, Get := fun _ => zero }

/-- The chunk actor state (mesh buffers and the mesh component are not
modelled; BuildMeshWithLOD reports whether it reached the mesh-building
step as a Bool alongside the updated flags). -/
structure AVoxelChunk where
  ChunkCoord : FChunkCoord
  WorldSettings : FVoxelWorldSettings
  TerrainGenerator : Option UVoxelTerrainGenerator
  DensityData : TArrayData ℚ
  MaterialData : TArrayData EVoxelType
  HasMarchingCubes : Bool
  CurrentLOD : EVoxelLOD
  ChunkState : EChunkState
  bIsGenerated : Bool
  bNeedsMeshRebuild : Bool
  bCollisionEnabled : Bool
  bHasVoxelData : Bool
  bPendingKill : Bool

namespace AVoxelChunk

/-- The AVoxelChunk() constructor state (SpawnActor result): collision
disabled, no data, no mesher. -/
def spawnDefault : AVoxelChunk :=
  { ChunkCoord := {}
    WorldSettings := {}
    TerrainGenerator := none
    DensityData := { Num := 0, Get := fun _ => 0 }
    MaterialData := { Num := 0, Get := fun _ => EVoxelType.Air }
    HasMarchingCubes := false
    CurrentLOD := EVoxelLOD.LOD0
    ChunkState := EChunkState.Unloaded
    bIsGenerated := false
    bNeedsMeshRebuild := false
    bCollisionEnabled := false
    bHasVoxelData := false
    bPendingKill := false }

/-- GetDensityIndex: X + Y * Size + Z * Size * Size with Size = ChunkSize + 1. -/
def GetDensityIndex (c : AVoxelChunk) (x y z : ℤ) : ℤ :=
  let Size := c.WorldSettings.ChunkSize + 1
  x + y * Size + z * Size * Size

/-- GetMaterialIndex: X + Y * ChunkSize + Z * ChunkSize * ChunkSize. -/
def GetMaterialIndex (c : AVoxelChunk) (x y z : ℤ) : ℤ :=
  x + y * c.WorldSettings.ChunkSize + z * c.WorldSettings.ChunkSize * c.WorldSettings.ChunkSize

/-- IsInBounds: 0 <= each coordinate < ChunkSize. -/
def IsInBounds (c : AVoxelChunk) (x y z : ℤ) : Bool :=
  0 ≤ x ∧ x < c.WorldSettings.ChunkSize ∧
  0 ≤ y ∧ y < c.WorldSettings.ChunkSize ∧
  0 ≤ z ∧ z < c.WorldSettings.ChunkSize

/-- IsInDensityBounds: 0 <= each coordinate <= ChunkSize. -/
def IsInDensityBounds (c : AVoxelChunk) (x y z : ℤ) : Bool :=
  0 ≤ x ∧ x ≤ c.WorldSettings.ChunkSize ∧
  0 ≤ y ∧ y ≤ c.WorldSettings.ChunkSize ∧
  0 ≤ z ∧ z ≤ c.WorldSettings.ChunkSize

/-- AVoxelChunk::InitializeChunk.  CurrentLOD and bCollisionEnabled are not
touched by the source and are preserved. -/
def InitializeChunk (c : AVoxelChunk) (InChunkCoord : FChunkCoord)
    (InSettings : FVoxelWorldSettings) (InGenerator : Option UVoxelTerrainGenerator) :
    AVoxelChunk :=
  let ChunkSize := InSettings.ChunkSize
  let DensitySize := ((ChunkSize + 1) * (ChunkSize + 1) * (ChunkSize + 1)).toNat
  let MaterialSize := (ChunkSize * ChunkSize * ChunkSize).toNat
  { c with
    ChunkCoord := InChunkCoord
    WorldSettings := InSettings
    TerrainGenerator := InGenerator
    ChunkState := EChunkState.Loading
    DensityData := c.DensityData.SetNum DensitySize 0
    MaterialData := c.MaterialData.SetNum MaterialSize EVoxelType.Air
    HasMarchingCubes := true
    bIsGenerated := false
    bNeedsMeshRebuild := true
    bHasVoxelData := true
    bPendingKill := false }

/-- AVoxelChunk::ResetChunk: reset flags for pooling, zero the data arrays
keeping their allocations, drop neighbour links. -/
def ResetChunk (c : AVoxelChunk) : AVoxelChunk :=
  { c with
    ChunkState := EChunkState.Unloaded
    bIsGenerated := false
    bNeedsMeshRebuild := true
    bHasVoxelData := false
    bPendingKill := false
    CurrentLOD := EVoxelLOD.LOD0
    DensityData := c.DensityData.zeroAll 0
    MaterialData := c.MaterialData.zeroAll EVoxelType.Air }

/-- The (z, y, x) iteration order of a triple loop z outer / y middle / x
inner, each running over 0 .. count-1. -/
def tripleRange (count : ℕ) : List (ℕ × ℕ × ℕ) :=
  (List.range count).flatMap fun z =>
    (List.range count).flatMap fun y =>
      (List.range count).map fun x => (x, y, z)

/-- AVoxelChunk::GenerateVoxelData: sample the terrain generator at every
density corner and every material cell, then set the generated flags.
Returns early (no state change) when pending kill or no generator is
assigned.  The periodic bPendingKill cancellation checks inside the loops
can only fire when the flag is set concurrently and are invisible to this
sequential model. -/
def GenerateVoxelData (c : AVoxelChunk) : AVoxelChunk :=
  if c.bPendingKill then c
  else
    match c.TerrainGenerator with
    | none => c
    | some gen =>
      let ChunkSize := c.WorldSettings.ChunkSize
      let ChunkWorldX := c.ChunkCoord.X * ChunkSize
      let ChunkWorldY := c.ChunkCoord.Y * ChunkSize
      let ChunkWorldZ := c.ChunkCoord.Z * ChunkSize
      let d1 := (tripleRange (ChunkSize + 1).toNat).foldl
        (fun d t =>
          d.write (c.GetDensityIndex t.1 t.2.1 t.2.2).toNat
            (gen.GetDensity (ChunkWorldX + t.1) (ChunkWorldY + t.2.1) (ChunkWorldZ + t.2.2)))
        c.DensityData
      let m1 := (tripleRange ChunkSize.toNat).foldl
        (fun m t =>
          m.write (c.GetMaterialIndex t.1 t.2.1 t.2.2).toNat
            (gen.GetVoxelType (ChunkWorldX + t.1) (ChunkWorldY + t.2.1) (ChunkWorldZ + t.2.2)))
        c.MaterialData
      { c with
        DensityData := d1
        MaterialData := m1
        bIsGenerated := true
        bHasVoxelData := true
        bNeedsMeshRebuild := true
        ChunkState := EChunkState.Generated }

/-- AVoxelChunk::GetDensity: 1.0 (air) outside the density bounds, without
voxel data, or on an array bound miss. -/
def GetDensity (c : AVoxelChunk) (x y z : ℤ) : ℚ :=
  if ¬c.IsInDensityBounds x y z ∨ ¬c.bHasVoxelData then 1
  else
    let Index := c.GetDensityIndex x y z
    if 0 ≤ Index ∧ Index < (c.DensityData.Num : ℤ) then c.DensityData.Get Index.toNat
    else 1

/-- AVoxelChunk::SetDensity. -/
def SetDensity (c : AVoxelChunk) (x y z : ℤ) (density : ℚ) : AVoxelChunk :=
  if ¬c.IsInDensityBounds x y z ∨ ¬c.bHasVoxelData then c
  else
    let Index := c.GetDensityIndex x y z
    if 0 ≤ Index ∧ Index < (c.DensityData.Num : ℤ) then
      { c with DensityData := c.DensityData.write Index.toNat density, bNeedsMeshRebuild := true }
    else c

/-- AVoxelChunk::GetMaterial. -/
def GetMaterial (c : AVoxelChunk) (x y z : ℤ) : EVoxelType :=
  if ¬c.IsInBounds x y z ∨ ¬c.bHasVoxelData then EVoxelType.Air
  else
    let Index := c.GetMaterialIndex x y z
    if 0 ≤ Index ∧ Index < (c.MaterialData.Num : ℤ) then c.MaterialData.Get Index.toNat
    else EVoxelType.Air

/-- AVoxelChunk::SetMaterial. -/
def SetMaterial (c : AVoxelChunk) (x y z : ℤ) (material : EVoxelType) : AVoxelChunk :=
  if ¬c.IsInBounds x y z ∨ ¬c.bHasVoxelData then c
  else
    let Index := c.GetMaterialIndex x y z
    if 0 ≤ Index ∧ Index < (c.MaterialData.Num : ℤ) then
      { c with MaterialData := c.MaterialData.write Index.toNat material, bNeedsMeshRebuild := true }
    else c

/-- AVoxelChunk::GetVoxel: material plus the density re-encoded as a byte,
uint8 truncation modelled as the floor of the clamped value. -/
def GetVoxel (c : AVoxelChunk) (x y z : ℤ) : FVoxel :=
  if ¬c.IsInBounds x y z ∨ ¬c.bHasVoxelData then FVoxel.make EVoxelType.Air
  else
    let Density := c.GetDensity x y z
    let Material := c.GetMaterial x y z
    { Ty := Material
      Density := (FMath.FloorToInt (FMath.Clamp ((1 - Density) * (255/2) + 255/2) 0 255)).toNat
      LightLevel := 0 }

/-- AVoxelChunk::SetVoxel: set material, decode and negate the density byte,
set density, and mark the chunk mesh-dirty. -/
def SetVoxel (c : AVoxelChunk) (x y z : ℤ) (voxel : FVoxel) : AVoxelChunk :=
  if ¬c.IsInBounds x y z ∨ ¬c.bHasVoxelData then c
  else
    let c := c.SetMaterial x y z voxel.Ty
    let Density := ((voxel.Density : ℚ) - 255/2) / (255/2)
    let Density := -Density
    let c := c.SetDensity x y z Density
    { c with bNeedsMeshRebuild := true }

/-- AVoxelChunk::GetDensityIncludingNeighbors.  The six arguments are the
dereferenced neighbour weak pointers (none = invalid link). -/
def GetDensityIncludingNeighbors (c : AVoxelChunk)
    (NeighborXPos NeighborXNeg NeighborYPos NeighborYNeg NeighborZPos NeighborZNeg :
      Option AVoxelChunk) (x y z : ℤ) : ℚ :=
  let ChunkSize := c.WorldSettings.ChunkSize
  if c.IsInDensityBounds x y z then c.GetDensity x y z
  else if h : x > ChunkSize ∧ NeighborXPos.isSome then
    (NeighborXPos.get h.2).GetDensity (x - ChunkSize) y z
  else if h : x < 0 ∧ NeighborXNeg.isSome then
    (NeighborXNeg.get h.2).GetDensity (x + ChunkSize) y z
  else if h : y > ChunkSize ∧ NeighborYPos.isSome then
    (NeighborYPos.get h.2).GetDensity x (y - ChunkSize) z
  else if h : y < 0 ∧ NeighborYNeg.isSome then
    (NeighborYNeg.get h.2).GetDensity x (y + ChunkSize) z
  else if h : z > ChunkSize ∧ NeighborZPos.isSome then
    (NeighborZPos.get h.2).GetDensity x y (z - ChunkSize)
  else if h : z < 0 ∧ NeighborZNeg.isSome then
    (NeighborZNeg.get h.2).GetDensity x y (z + ChunkSize)
  else
    match c.TerrainGenerator with
    | some gen =>
      gen.GetDensity (c.ChunkCoord.X * ChunkSize + x) (c.ChunkCoord.Y * ChunkSize + y)
        (c.ChunkCoord.Z * ChunkSize + z)
    | none => 1

/-- AVoxelChunk::GetMaterialIncludingNeighbors. -/
def GetMaterialIncludingNeighbors (c : AVoxelChunk)
    (NeighborXPos NeighborXNeg NeighborYPos NeighborYNeg NeighborZPos NeighborZNeg :
      Option AVoxelChunk) (x y z : ℤ) : EVoxelType :=
  let ChunkSize := c.WorldSettings.ChunkSize
  if c.IsInBounds x y z then c.GetMaterial x y z
  else if h : x ≥ ChunkSize ∧ NeighborXPos.isSome then
    (NeighborXPos.get h.2).GetMaterial (x - ChunkSize) y z
  else if h : x < 0 ∧ NeighborXNeg.isSome then
    (NeighborXNeg.get h.2).GetMaterial (x + ChunkSize) y z
  else if h : y ≥ ChunkSize ∧ NeighborYPos.isSome then
    (NeighborYPos.get h.2).GetMaterial x (y - ChunkSize) z
  else if h : y < 0 ∧ NeighborYNeg.isSome then
    (NeighborYNeg.get h.2).GetMaterial x (y + ChunkSize) z
  else if h : z ≥ ChunkSize ∧ NeighborZPos.isSome then
    (NeighborZPos.get h.2).GetMaterial x y (z - ChunkSize)
  else if h : z < 0 ∧ NeighborZNeg.isSome then
    (NeighborZNeg.get h.2).GetMaterial x y (z + ChunkSize)
  else EVoxelType.Air

/-- AVoxelChunk::SetLOD. -/
def SetLOD (c : AVoxelChunk) (NewLOD : EVoxelLOD) : AVoxelChunk :=
  if c.CurrentLOD ≠ NewLOD then
    { c with CurrentLOD := NewLOD, bNeedsMeshRebuild := true }
  else c

/-- AVoxelChunk::SetCollisionEnabled (flag part; the mesh component's
collision mode is not modelled). -/
def SetCollisionEnabled (c : AVoxelChunk) (bEnabled : Bool) : AVoxelChunk :=
  if c.bCollisionEnabled ≠ bEnabled then { c with bCollisionEnabled := bEnabled } else c

/-- AVoxelChunk::UnloadVoxelData. -/
def UnloadVoxelData (c : AVoxelChunk) : AVoxelChunk :=
  if ¬c.bHasVoxelData then c
  else
    { c with
      DensityData := { Num := 0, Get := fun _ => 0 }
      MaterialData := { Num := 0, Get := fun _ => EVoxelType.Air }
      bHasVoxelData := false }

/-- AVoxelChunk::BuildMeshWithLOD, reduced to its observable control flow:
returns the updated chunk and whether the mesh-building step was reached.
The guards are those of the source: pending kill, not generated or no voxel
data, and no mesher, each return early without producing a mesh and without
touching the flags. -/
def BuildMeshWithLOD (c : AVoxelChunk) (LODLevel : EVoxelLOD) : AVoxelChunk × Bool :=
  if c.bPendingKill then (c, false)
  else if ¬c.bIsGenerated ∨ ¬c.bHasVoxelData then (c, false)
  else if ¬c.HasMarchingCubes then (c, false)
  else
    ({ c with
        bNeedsMeshRebuild := false
        ChunkState := EChunkState.Meshed
        CurrentLOD := LODLevel }, true)

/-- AVoxelChunk::BuildMesh = BuildMeshWithLOD(CurrentLOD). -/
def BuildMesh (c : AVoxelChunk) : AVoxelChunk × Bool :=
  c.BuildMeshWithLOD c.CurrentLOD

end AVoxelChunk

/-! ### FVoxelGreedyMesher (VoxelGreedyMesher.cpp) -/

/-- FVector, embedded componentwise over ℚ. -/
abbrev FVector : Type := ℚ × ℚ × ℚ

/-- Componentwise vector addition. -/
def FVector.add (a b : FVector) : FVector := (a.1 + b.1, a.2.1 + b.2.1, a.2.2 + b.2.2)

/-- Scalar multiple. -/
def FVector.scale (q : ℚ) (a : FVector) : FVector := (q * a.1, q * a.2.1, q * a.2.2)

/-- Componentwise negation. -/
def FVector.neg (a : FVector) : FVector := (-a.1, -a.2.1, -a.2.2)

/-- FVector::SizeSquared. -/
def FVector.SizeSquared (a : FVector) : ℚ := a.1 * a.1 + a.2.1 * a.2.1 + a.2.2 * a.2.2

/-- FVector::Size (via the Sqrt model). -/
def FVector.Size (a : FVector) : ℚ := FMath.Sqrt a.SizeSquared

/-- FVector::GetSafeNormal with the default tolerance: exact unit vectors are
returned as-is, vectors below tolerance give zero, otherwise scale by the
inverse square root. -/
def FVector.GetSafeNormal (a : FVector) : FVector :=
  let ss := a.SizeSquared
  if ss = 1 then a
  else if ss < FMath.SMALL_NUMBER then (0, 0, 0)
  else FVector.scale (1 / FMath.Sqrt ss) a

/-- FColor (bytes). -/
structure FColor where
  R : ℕ
  G : ℕ
  B : ℕ
  A : ℕ := 255
  deriving DecidableEq, Repr

/-- FProcMeshTangent. -/
structure FProcMeshTangent where
  TangentX : FVector
  bFlipTangentY : Bool

/-- FVoxelMeshData (VoxelTypes.h): the six mesh buffers. -/
structure FVoxelMeshData where
  Vertices : List FVector := []
  Triangles : List ℕ := []
  Normals : List FVector := []
  UVs : List (ℚ × ℚ) := []
  VertexColors : List FColor := []
  Tangents : List FProcMeshTangent := []

/-- FVoxelMeshData::Reset. -/
def FVoxelMeshData.Reset : FVoxelMeshData := {}

/-- The mesher: chunk size (int32 in the source, always used as a
nonnegative count) and voxel size. -/
structure FVoxelGreedyMesher where
  ChunkSize : ℕ
  VoxelSize : ℚ

namespace FVoxelGreedyMesher

/-- FVoxelGreedyMesher::GetIndex. -/
def GetIndex (gm : FVoxelGreedyMesher) (x y z : ℤ) : ℤ :=
  x + y * gm.ChunkSize + z * gm.ChunkSize * gm.ChunkSize

/-- FVoxelGreedyMesher::GetVoxelColor. -/
def GetVoxelColor (t : EVoxelType) : FColor :=
  match t with
  | EVoxelType.Stone => { R := 128, G := 128, B := 128 }
  | EVoxelType.Dirt => { R := 139, G := 90, B := 43 }
  | EVoxelType.Grass => { R := 34, G := 139, B := 34 }
  | EVoxelType.Sand => { R := 238, G := 214, B := 175 }
  | EVoxelType.Water => { R := 64, G := 164, B := 223, A := 180 }
  | EVoxelType.Snow => { R := 255, G := 250, B := 250 }
  | EVoxelType.Bedrock => { R := 50, G := 50, B := 50 }
  | EVoxelType.Gravel => { R := 160, G := 160, B := 160 }
  | EVoxelType.Clay => { R := 180, G := 160, B := 140 }
  | EVoxelType.Ice => { R := 200, G := 230, B := 255, A := 200 }
  | EVoxelType.Lava => { R := 255, G := 100, B := 0 }
  | _ => { R := 255, G := 255, B := 255 }

/-- FVoxelGreedyMesher::AddQuad: four vertices, their attributes, and two
triangles (six indices). -/
def AddQuad (md : FVoxelMeshData) (Position DU DV : FVector) (Width Height : ℕ)
    (Normal : FVector) (VoxelType : EVoxelType) : FVoxelMeshData :=
  let VertexStart := md.Vertices.length
  let Color := GetVoxelColor VoxelType
  let Tangent := DU.GetSafeNormal
  let v0 := Position
  let v1 := Position.add (FVector.scale (Width : ℚ) DU)
  let v2 := (Position.add (FVector.scale (Width : ℚ) DU)).add (FVector.scale (Height : ℚ) DV)
  let v3 := Position.add (FVector.scale (Height : ℚ) DV)
  { md with
    Vertices := md.Vertices ++ [v0, v1, v2, v3]
    Normals := md.Normals ++ [Normal, Normal, Normal, Normal]
    UVs := md.UVs ++ [(0, 0), ((Width : ℚ), 0), ((Width : ℚ), (Height : ℚ)), (0, (Height : ℚ))]
    VertexColors := md.VertexColors ++ [Color, Color, Color, Color]
    Tangents := md.Tangents ++
      [⟨Tangent, false⟩, ⟨Tangent, false⟩, ⟨Tangent, false⟩, ⟨Tangent, false⟩]
    Triangles := md.Triangles ++
      [VertexStart, VertexStart + 1, VertexStart + 2, VertexStart, VertexStart + 2,
        VertexStart + 3] }

/-- Coords[Axis] = a, Coords[(Axis+1)%3] = u, Coords[(Axis+2)%3] = v,
returned as the (X, Y, Z) triple. -/
def coordsFor {α : Type} (axis : ℕ) (a u v : α) : α × α × α :=
  match axis % 3 with
  | 0 => (a, u, v)
  | 1 => (v, a, u)
  | _ => (u, v, a)

/-- The mask entry of FVoxelGreedyMesher::ProcessSlice at (UPos, VPos) of
slice D: (face visible, face material).  Entries outside the N x N mask are
never consulted by the merge scan. -/
def maskAt (gm : FVoxelGreedyMesher) (VoxelData : ℕ → FVoxel)
    (GetNeighborVoxel : ℤ → ℤ → ℤ → FVoxel) (axis : ℕ) (BackFace : Bool) (D u v : ℕ) :
    Bool × EVoxelType :=
  let c := coordsFor axis (D : ℤ) (u : ℤ) (v : ℤ)
  let CurrentVoxel := VoxelData (gm.GetIndex c.1 c.2.1 c.2.2).toNat
  let na : ℤ := (D : ℤ) + (if BackFace then -1 else 1)
  let nc := coordsFor axis na (u : ℤ) (v : ℤ)
  let NeighborVoxel :=
    if 0 ≤ na ∧ na < (gm.ChunkSize : ℤ) then VoxelData (gm.GetIndex nc.1 nc.2.1 nc.2.2).toNat
    else GetNeighborVoxel nc.1 nc.2.1 nc.2.2
  if CurrentVoxel.IsSolid ∧ NeighborVoxel.IsTransparent then (true, CurrentVoxel.Ty)
  else (false, EVoxelType.Air)

/-- The width-growing loop of the merge scan: starting from Width = w, grow
while the next mask cell in the row is set with the same type.  The loop
makes at most N - (u+w) steps; fuel is structural-recursion fuel that every
caller instantiates with N, which is never exhausted. -/
def growWidth (fuel : ℕ) (N : ℕ) (mask : ℕ → ℕ → Bool) (tys : ℕ → ℕ → EVoxelType)
    (ct : EVoxelType) (u v w : ℕ) : ℕ :=
  match fuel with
  | 0 => w
  | fuel + 1 =>
    if u + w < N ∧ mask (u + w) v = true ∧ tys (u + w) v = ct then
      growWidth fuel N mask tys ct u v (w + 1)
    else w

/-- Does the whole widened row at height vh match (the inner W loop of the
height scan)? -/
def rowMatches (mask : ℕ → ℕ → Bool) (tys : ℕ → ℕ → EVoxelType) (ct : EVoxelType)
    (u vh w : ℕ) : Bool :=
  (List.range w).all fun i => mask (u + i) vh && decide (tys (u + i) vh = ct)

/-- The height-growing loop of the merge scan (fuelled like growWidth). -/
def growHeight (fuel : ℕ) (N : ℕ) (mask : ℕ → ℕ → Bool) (tys : ℕ → ℕ → EVoxelType)
    (ct : EVoxelType) (u v w h : ℕ) : ℕ :=
  match fuel with
  | 0 => h
  | fuel + 1 =>
    if v + h < N ∧ rowMatches mask tys ct u (v + h) w = true then
      growHeight fuel N mask tys ct u v w (h + 1)
    else h

/-- Clearing the consumed Width x Height rectangle of the mask. -/
def clearRect (mask : ℕ → ℕ → Bool) (u v w h : ℕ) : ℕ → ℕ → Bool :=
  fun a b => if u ≤ a ∧ a < u + w ∧ v ≤ b ∧ b < v + h then false else mask a b

/-- The UPos scan of one mask row: skip clear cells, merge and emit a quad at
each set cell, jumping forward by the merged width.  UPos advances by at
least one per step, so the loop makes at most N - u steps; every caller
passes N as fuel, which is never exhausted. -/
def processRow (gm : FVoxelGreedyMesher) (axis : ℕ) (BackFace : Bool) (D : ℕ)
    (tys : ℕ → ℕ → EVoxelType) (v : ℕ) (fuel : ℕ) (mask : ℕ → ℕ → Bool)
    (md : FVoxelMeshData) (u : ℕ) : (ℕ → ℕ → Bool) × FVoxelMeshData :=
  match fuel with
  | 0 => (mask, md)
  | fuel + 1 =>
    let N := gm.ChunkSize
    if u < N then
      if mask u v = true then
        let CurrentType := tys u v
        let Width := growWidth N N mask tys CurrentType u v 1
        let Height := growHeight N N mask tys CurrentType u v Width 1
        let VoxelSize := gm.VoxelSize
        let DU : FVector := coordsFor axis 0 VoxelSize 0
        let DV : FVector := coordsFor axis 0 0 VoxelSize
        let AxisDir : FVector := coordsFor axis 1 0 0
        let Normal := if BackFace then AxisDir.neg else AxisDir
        let Position : FVector := coordsFor axis
          (((D : ℚ) + (if BackFace then 0 else 1)) * VoxelSize)
          ((u : ℚ) * VoxelSize) ((v : ℚ) * VoxelSize)
        let md2 :=
          if BackFace then
            AddQuad md (Position.add (FVector.scale (Height : ℚ) DV)) DU DV.neg Width Height
              Normal CurrentType
          else
            AddQuad md Position DU DV Width Height Normal CurrentType
        let mask2 := clearRect mask u v Width Height
        processRow gm axis BackFace D tys v fuel mask2 md2 (u + Width)
      else
        processRow gm axis BackFace D tys v fuel mask md (u + 1)
    else (mask, md)

/-- FVoxelGreedyMesher::ProcessSlice: for each slice D along the axis, build
the visibility mask and run the greedy merge scan row by row. -/
def ProcessSlice (gm : FVoxelGreedyMesher) (VoxelData : ℕ → FVoxel)
    (GetNeighborVoxel : ℤ → ℤ → ℤ → FVoxel) (md : FVoxelMeshData) (axis : ℕ)
    (BackFace : Bool) : FVoxelMeshData :=
  (List.range gm.ChunkSize).foldl
    (fun md D =>
      let mask := fun u v => (maskAt gm VoxelData GetNeighborVoxel axis BackFace D u v).1
      let tys := fun u v => (maskAt gm VoxelData GetNeighborVoxel axis BackFace D u v).2
      ((List.range gm.ChunkSize).foldl
        (fun st v => processRow gm axis BackFace D tys v gm.ChunkSize st.1 st.2 0)
        (mask, md)).2)
    md

/-- FVoxelGreedyMesher::GenerateMesh: reset the buffers and process front and
back faces of each of the three axes. -/
def GenerateMesh (gm : FVoxelGreedyMesher) (VoxelData : ℕ → FVoxel)
    (GetNeighborVoxel : ℤ → ℤ → ℤ → FVoxel) : FVoxelMeshData :=
  let md := FVoxelMeshData.Reset
  let md := gm.ProcessSlice VoxelData GetNeighborVoxel md 0 false
  let md := gm.ProcessSlice VoxelData GetNeighborVoxel md 0 true
  let md := gm.ProcessSlice VoxelData GetNeighborVoxel md 1 false
  let md := gm.ProcessSlice VoxelData GetNeighborVoxel md 1 true
  let md := gm.ProcessSlice VoxelData GetNeighborVoxel md 2 false
  gm.ProcessSlice VoxelData GetNeighborVoxel md 2 true

end FVoxelGreedyMesher

/-! ### AVoxelWorldManager (VoxelWorldManager.cpp)

Chunk actors are identified by allocation ids into a heap function; the
loaded-chunk TMap is an association list, the two work queues are lists
(TArray order preserved: pop at the front, add at the back; the chunk pool
pops at the back like TArray::Pop).  Editor-preview paths (WITH_EDITOR) are
compiled out.  Neighbour re-wiring (UpdateChunkNeighbors / SetNeighbors) has
no observable effect in this model because the neighbour-aware density and
material accessors receive the dereferenced links explicitly, so it is the
identity on the modelled state. -/

abbrev ChunkId := ℕ

structure AVoxelWorldManager where
  WorldSettings : FVoxelWorldSettings
  TerrainGenerator : Option UVoxelTerrainGenerator
  CurrentLoadCenter : FChunkCoord
  LoadedChunks : List (FChunkCoord × ChunkId)
  ChunkPool : List ChunkId
  ChunkGenerationQueue : List FChunkCoord
  MeshBuildQueue : List ChunkId
  Chunks : ChunkId → AVoxelChunk
  NextChunkId : ChunkId
  ActiveAsyncTasks : ℕ
  bCancelAsyncTasks : Bool
  bIsInitialized : Bool

namespace AVoxelWorldManager

/-- TMap::Find on the loaded-chunk map. -/
def mapFind (m : List (FChunkCoord × ChunkId)) (c : FChunkCoord) : Option ChunkId :=
  (m.find? fun p => p.1 = c).map (·.2)

/-- TMap::Remove on the loaded-chunk map. -/
def mapRemove (m : List (FChunkCoord × ChunkId)) (c : FChunkCoord) :
    List (FChunkCoord × ChunkId) :=
  m.filter fun p => ¬p.1 = c

/-- Replace the heap entry for one chunk id. -/
def updateChunk (s : AVoxelWorldManager) (id : ChunkId) (f : AVoxelChunk → AVoxelChunk) :
    AVoxelWorldManager :=
  { s with Chunks := fun j => if j = id then f (s.Chunks j) else s.Chunks j }

/-- The recurring idiom: if (!MeshBuildQueue.Contains(x)) MeshBuildQueue.Add(x). -/
def addToMeshBuildQueueUnique (s : AVoxelWorldManager) (id : ChunkId) : AVoxelWorldManager :=
  if id ∈ s.MeshBuildQueue then s else { s with MeshBuildQueue := s.MeshBuildQueue ++ [id] }

/-- AVoxelWorldManager::GetChunk. -/
def GetChunk (s : AVoxelWorldManager) (c : FChunkCoord) : Option ChunkId :=
  mapFind s.LoadedChunks c

/-- AVoxelWorldManager::GetChunkDistanceFromCenter: horizontal euclidean
distance (through the Sqrt model). -/
def GetChunkDistanceFromCenter (s : AVoxelWorldManager) (c : FChunkCoord) : ℚ :=
  let dx : ℚ := ((c.X - s.CurrentLoadCenter.X : ℤ) : ℚ)
  let dy : ℚ := ((c.Y - s.CurrentLoadCenter.Y : ℤ) : ℚ)
  FMath.Sqrt (dx * dx + dy * dy)

/-- AVoxelWorldManager::GetLODForDistance. -/
def GetLODForDistance (s : AVoxelWorldManager) (d : ℚ) : EVoxelLOD :=
  s.WorldSettings.LODSettings.GetLODForDistance d

/-- AVoxelWorldManager::WorldToChunkCoord. -/
def WorldToChunkCoord (s : AVoxelWorldManager) (p : FVector) : FChunkCoord :=
  let ChunkWorldSize := (s.WorldSettings.ChunkSize : ℚ) * s.WorldSettings.VoxelSize
  { X := FMath.FloorToInt (p.1 / ChunkWorldSize)
    Y := FMath.FloorToInt (p.2.1 / ChunkWorldSize)
    Z := FMath.FloorToInt (p.2.2 / ChunkWorldSize) }

/-- AVoxelWorldManager::WorldToLocalVoxelCoord: owning chunk coordinate plus
the clamped local voxel coordinate. -/
def WorldToLocalVoxelCoord (s : AVoxelWorldManager) (p : FVector) :
    FChunkCoord × ℤ × ℤ × ℤ :=
  let cc := s.WorldToChunkCoord p
  let ChunkWorldSize := (s.WorldSettings.ChunkSize : ℚ) * s.WorldSettings.VoxelSize
  let rx := p.1 - (cc.X : ℚ) * ChunkWorldSize
  let ry := p.2.1 - (cc.Y : ℚ) * ChunkWorldSize
  let rz := p.2.2 - (cc.Z : ℚ) * ChunkWorldSize
  let lx := FMath.FloorToInt (rx / s.WorldSettings.VoxelSize)
  let ly := FMath.FloorToInt (ry / s.WorldSettings.VoxelSize)
  let lz := FMath.FloorToInt (rz / s.WorldSettings.VoxelSize)
  (cc,
   max 0 (min lx (s.WorldSettings.ChunkSize - 1)),
   max 0 (min ly (s.WorldSettings.ChunkSize - 1)),
   max 0 (min lz (s.WorldSettings.ChunkSize - 1)))

/-- AVoxelWorldManager::UpdateChunkNeighbors (identity in this model, see
the section comment). -/
def UpdateChunkNeighbors (s : AVoxelWorldManager) (_id : ChunkId) : AVoxelWorldManager := s

/-- AVoxelWorldManager::CreateOrGetChunk: return the already-loaded chunk,
otherwise reuse a pooled chunk (TArray::Pop takes the last element) or spawn
a fresh one, initialise it, set LOD and collision from the distance, insert
it into the loaded map and refresh neighbour links. -/
def CreateOrGetChunk (s : AVoxelWorldManager) (c : FChunkCoord) :
    AVoxelWorldManager × ChunkId :=
  match mapFind s.LoadedChunks c with
  | some id => (s, id)
  | none =>
    let pooled := s.WorldSettings.bEnableChunkPooling ∧ s.ChunkPool ≠ []
    let id := if pooled then s.ChunkPool.getLastD 0 else s.NextChunkId
    let s1 :=
      if pooled then
        let s := { s with ChunkPool := s.ChunkPool.dropLast }
        updateChunk s id AVoxelChunk.ResetChunk
      else
        { s with
          Chunks := fun j => if j = id then AVoxelChunk.spawnDefault else s.Chunks j
          NextChunkId := s.NextChunkId + 1 }
    let s2 := updateChunk s1 id fun ch =>
      ch.InitializeChunk c s.WorldSettings s.TerrainGenerator
    let Distance := s2.GetChunkDistanceFromCenter c
    let s3 := updateChunk s2 id fun ch =>
      (ch.SetLOD (s2.GetLODForDistance Distance)).SetCollisionEnabled
        (s2.WorldSettings.LODSettings.ShouldHaveCollision Distance)
    let s4 := { s3 with LoadedChunks := s3.LoadedChunks ++ [(c, id)] }
    (s4.UpdateChunkNeighbors id, id)

/-- AVoxelWorldManager::RecycleChunk: drop the chunk from the mesh queue,
pool it (resetting) when there is room, destroy it otherwise (modelled by
the pending-kill flag), and remove the coordinate from the loaded map. -/
def RecycleChunk (s : AVoxelWorldManager) (c : FChunkCoord) : AVoxelWorldManager :=
  match mapFind s.LoadedChunks c with
  | none => { s with LoadedChunks := mapRemove s.LoadedChunks c }
  | some id =>
    let s := { s with MeshBuildQueue := s.MeshBuildQueue.filter (fun j => ¬j = id) }
    let s :=
      if s.WorldSettings.bEnableChunkPooling ∧ s.ChunkPool.length < s.WorldSettings.ChunkPoolSize
      then
        let s := updateChunk s id AVoxelChunk.ResetChunk
        { s with ChunkPool := s.ChunkPool ++ [id] }
      else
        updateChunk s id fun ch => { ch with bPendingKill := true }
    { s with LoadedChunks := mapRemove s.LoadedChunks c }

/-- The per-candidate body of the keep-set loop of
AVoxelWorldManager::UpdateChunkLoading: coordinates within render distance
are kept and, when neither loaded nor queued, appended to the generation
queue. -/
def keepStep (R : ℚ) (st : List FChunkCoord × AVoxelWorldManager) (c : FChunkCoord) :
    List FChunkCoord × AVoxelWorldManager :=
  let s := st.2
  if s.GetChunkDistanceFromCenter c ≤ R then
    let keep := st.1 ++ [c]
    if ¬(mapFind s.LoadedChunks c).isSome ∧ c ∉ s.ChunkGenerationQueue then
      (keep, { s with ChunkGenerationQueue := s.ChunkGenerationQueue ++ [c] })
    else (keep, s)
  else st

/-- The candidate coordinates scanned by UpdateChunkLoading: X and Y within
render distance of the centre, Z over the world height layers, in loop
order. -/
def loadCandidates (center : FChunkCoord) (R H : ℤ) : List FChunkCoord :=
  (List.range (2 * R + 1).toNat).flatMap fun ix =>
    (List.range (2 * R + 1).toNat).flatMap fun iy =>
      (List.range H.toNat).map fun iz =>
        { X := center.X - R + ix, Y := center.Y - R + iy, Z := (iz : ℤ) }

/-- AVoxelWorldManager::SortQueueByDistance, modelled with a merge sort on
the same comparator. -/
def SortQueueByDistance (s : AVoxelWorldManager) (q : List FChunkCoord) :
    List FChunkCoord :=
  q.mergeSort fun a b => s.GetChunkDistanceFromCenter a ≤ s.GetChunkDistanceFromCenter b

/-- AVoxelWorldManager::UpdateChunkLoading: build the keep-set and queue the
missing coordinates nearest-first, then recycle loaded chunks that fell out
of the keep-set. -/
def UpdateChunkLoading (s : AVoxelWorldManager) : AVoxelWorldManager :=
  if s.bCancelAsyncTasks then s
  else
    let R := s.WorldSettings.RenderDistance
    let H := s.WorldSettings.WorldHeightChunks
    let st := (loadCandidates s.CurrentLoadCenter R H).foldl (keepStep (R : ℚ)) ([], s)
    let keep := st.1
    let s1 := st.2
    let s2 := { s1 with ChunkGenerationQueue := s1.SortQueueByDistance s1.ChunkGenerationQueue }
    let unload := (s2.LoadedChunks.filter fun p => p.1 ∉ keep).map (·.1)
    unload.foldl RecycleChunk s2

/-- AVoxelWorldManager::SetLoadCenter. -/
def SetLoadCenter (s : AVoxelWorldManager) (p : FVector) : AVoxelWorldManager :=
  let c := s.WorldToChunkCoord p
  if c ≠ s.CurrentLoadCenter then
    UpdateChunkLoading { s with CurrentLoadCenter := c }
  else s

/-- AVoxelWorldManager::UpdateChunkLODs: recompute each loaded chunk's LOD
and queue changed chunks for a mesh rebuild (no duplicates). -/
def UpdateChunkLODs (s : AVoxelWorldManager) : AVoxelWorldManager :=
  s.LoadedChunks.foldl
    (fun s p =>
      let id := p.2
      let Distance := s.GetChunkDistanceFromCenter p.1
      let NewLOD := s.GetLODForDistance Distance
      if (s.Chunks id).CurrentLOD ≠ NewLOD then
        let s := updateChunk s id fun ch => ch.SetLOD NewLOD
        addToMeshBuildQueueUnique s id
      else s)
    s

/-- AVoxelWorldManager::UpdateChunkCollisions. -/
def UpdateChunkCollisions (s : AVoxelWorldManager) : AVoxelWorldManager :=
  s.LoadedChunks.foldl
    (fun s p =>
      let id := p.2
      let Distance := s.GetChunkDistanceFromCenter p.1
      let bShouldHaveCollision := s.WorldSettings.LODSettings.ShouldHaveCollision Distance
      if (s.Chunks id).bCollisionEnabled ≠ bShouldHaveCollision then
        let s := updateChunk s id fun ch => ch.SetCollisionEnabled bShouldHaveCollision
        if (s.Chunks id).bIsGenerated then addToMeshBuildQueueUnique s id else s
      else s)
    s

/-- FChunkGenerationTask::DoWork: the background generation task body;
abandons on the shared cancel flag or a pending-kill chunk. -/
def FChunkGenerationTask.DoWork (s : AVoxelWorldManager) (id : ChunkId) :
    AVoxelWorldManager :=
  if s.bCancelAsyncTasks then s
  else if (s.Chunks id).bPendingKill then s
  else updateChunk s id AVoxelChunk.GenerateVoxelData

/-- The drain loop of AVoxelWorldManager::ProcessGenerationQueue.  Each pass
pops the front coordinate, creates or fetches its chunk and, when the chunk
is not yet generated, either starts an async task (generation itself then
happens later through FChunkGenerationTask.DoWork) or generates synchronously,
then queues the chunk for meshing; only those passes count against the
per-frame budget.  Fuel is the initial queue length (the queue shrinks by
one per pass). -/
def processGenLoop (fuel : ℕ) (s : AVoxelWorldManager) (processed : ℕ) :
    AVoxelWorldManager :=
  match fuel with
  | 0 => s
  | fuel + 1 =>
    if ¬(s.ChunkGenerationQueue ≠ [] ∧ processed < s.WorldSettings.ChunksPerFrame) then s
    else if s.bCancelAsyncTasks then s
    else
      match h : s.ChunkGenerationQueue with
      | [] => s
      | coord :: rest =>
        let s := { s with ChunkGenerationQueue := rest }
        let r := CreateOrGetChunk s coord
        let s := r.1
        let id := r.2
        if ¬(s.Chunks id).bIsGenerated then
          let s :=
            if s.WorldSettings.bAsyncGeneration then
              { s with ActiveAsyncTasks := s.ActiveAsyncTasks + 1 }
            else updateChunk s id AVoxelChunk.GenerateVoxelData
          let s := addToMeshBuildQueueUnique s id
          processGenLoop fuel s (processed + 1)
        else processGenLoop fuel s processed

/-- AVoxelWorldManager::ProcessGenerationQueue. -/
def ProcessGenerationQueue (s : AVoxelWorldManager) : AVoxelWorldManager :=
  if s.bCancelAsyncTasks then s
  else processGenLoop s.ChunkGenerationQueue.length s 0

/-- The drain loop of AVoxelWorldManager::ProcessMeshBuildQueue.  Pops the
front chunk; pending-kill chunks are skipped, not-yet-generated chunks are
collected for re-queueing, dirty generated chunks get their neighbours
refreshed and their mesh built.  The chunk record as seen at each BuildMesh
call is appended to the events list (the proof payload for the ordering
guarantee).  Fuel is the initial queue length. -/
def processMeshLoop (fuel : ℕ) (s : AVoxelWorldManager) (built : ℕ)
    (requeue : List ChunkId) (events : List AVoxelChunk) :
    AVoxelWorldManager × List ChunkId × List AVoxelChunk :=
  match fuel with
  | 0 => (s, requeue, events)
  | fuel + 1 =>
    if ¬(s.MeshBuildQueue ≠ [] ∧ built < s.WorldSettings.MeshBuildsPerFrame) then
      (s, requeue, events)
    else if s.bCancelAsyncTasks then (s, requeue, events)
    else
      match h : s.MeshBuildQueue with
      | [] => (s, requeue, events)
      | id :: rest =>
        let s := { s with MeshBuildQueue := rest }
        let chunk := s.Chunks id
        if chunk.bPendingKill then processMeshLoop fuel s built requeue events
        else if ¬chunk.bIsGenerated then
          processMeshLoop fuel s built (requeue ++ [id]) events
        else if chunk.bNeedsMeshRebuild then
          let s := s.UpdateChunkNeighbors id
          let s := updateChunk s id fun ch => ch.BuildMesh.1
          processMeshLoop fuel s (built + 1) requeue (events ++ [chunk])
        else processMeshLoop fuel s built requeue events

/-- AVoxelWorldManager::ProcessMeshBuildQueue, also returning the list of
chunk records handed to BuildMesh during this call. -/
def ProcessMeshBuildQueueWithEvents (s : AVoxelWorldManager) :
    AVoxelWorldManager × List AVoxelChunk :=
  if s.bCancelAsyncTasks then (s, [])
  else
    let r := processMeshLoop s.MeshBuildQueue.length s 0 [] []
    let s1 := r.1
    let s2 := r.2.1.foldl addToMeshBuildQueueUnique s1
    (s2, r.2.2)

/-- AVoxelWorldManager::ProcessMeshBuildQueue. -/
def ProcessMeshBuildQueue (s : AVoxelWorldManager) : AVoxelWorldManager :=
  s.ProcessMeshBuildQueueWithEvents.1

/-- AVoxelWorldManager::GetVoxelAtWorldPosition: an Air voxel whenever the
owning chunk is missing, not generated, or has no voxel data. -/
def GetVoxelAtWorldPosition (s : AVoxelWorldManager) (p : FVector) : FVoxel :=
  let r := s.WorldToLocalVoxelCoord p
  match s.GetChunk r.1 with
  | some id =>
    let chunk := s.Chunks id
    if chunk.bIsGenerated ∧ chunk.bHasVoxelData then
      chunk.GetVoxel r.2.1 r.2.2.1 r.2.2.2
    else FVoxel.make EVoxelType.Air
  | none => FVoxel.make EVoxelType.Air

/-- The QueueNeighborUpdate lambda of AVoxelWorldManager::SetVoxelAtWorldPosition:
queue the chunk at the given coordinate for a mesh rebuild if it is loaded. -/
def queueNeighbor (s : AVoxelWorldManager) (c : FChunkCoord) : AVoxelWorldManager :=
  match s.GetChunk c with
  | some nid => addToMeshBuildQueueUnique s nid
  | none => s

/-- The X-axis boundary check of SetVoxelAtWorldPosition. -/
def boundaryQueueX (s : AVoxelWorldManager) (cc : FChunkCoord) (lx : ℤ) :
    AVoxelWorldManager :=
  if lx = 0 then queueNeighbor s { cc with X := cc.X - 1 }
  else if lx = s.WorldSettings.ChunkSize - 1 then queueNeighbor s { cc with X := cc.X + 1 }
  else s

/-- The Y-axis boundary check of SetVoxelAtWorldPosition. -/
def boundaryQueueY (s : AVoxelWorldManager) (cc : FChunkCoord) (ly : ℤ) :
    AVoxelWorldManager :=
  if ly = 0 then queueNeighbor s { cc with Y := cc.Y - 1 }
  else if ly = s.WorldSettings.ChunkSize - 1 then queueNeighbor s { cc with Y := cc.Y + 1 }
  else s

/-- The Z-axis boundary check of SetVoxelAtWorldPosition. -/
def boundaryQueueZ (s : AVoxelWorldManager) (cc : FChunkCoord) (lz : ℤ) :
    AVoxelWorldManager :=
  if lz = 0 then queueNeighbor s { cc with Z := cc.Z - 1 }
  else if lz = s.WorldSettings.ChunkSize - 1 then queueNeighbor s { cc with Z := cc.Z + 1 }
  else s

/-- AVoxelWorldManager::SetVoxelAtWorldPosition: write the voxel into the
owning generated chunk, queue that chunk for a mesh rebuild, and also queue
the face-adjacent loaded neighbour when the edit touches a chunk boundary
(the three axis checks run in X, Y, Z order, as in the source). -/
def SetVoxelAtWorldPosition (s : AVoxelWorldManager) (p : FVector) (voxel : FVoxel) :
    AVoxelWorldManager :=
  let r := s.WorldToLocalVoxelCoord p
  let cc := r.1
  let lx := r.2.1
  let ly := r.2.2.1
  let lz := r.2.2.2
  match s.GetChunk cc with
  | none => s
  | some id =>
    let chunk := s.Chunks id
    if chunk.bIsGenerated ∧ chunk.bHasVoxelData then
      let s := updateChunk s id fun ch => ch.SetVoxel lx ly lz voxel
      let s := addToMeshBuildQueueUnique s id
      boundaryQueueZ (boundaryQueueY (boundaryQueueX s cc lx) cc ly) cc lz
    else s

/-- FVector subtraction (for the raycast). -/
def FVector.sub (a b : FVector) : FVector := (a.1 - b.1, a.2.1 - b.2.1, a.2.2 - b.2.2)

/-- The GetTMax lambda of AVoxelWorldManager::VoxelRaycast. -/
def raycastGetTMax (VoxelSize : ℚ) (pos dir stepDir : ℚ) : ℚ :=
  if |dir| < FMath.SMALL_NUMBER then FMath.MAX_FLT
  else
    let boundary := FMath.FloorToFloat (pos / VoxelSize) * VoxelSize
    let boundary := if stepDir > 0 then boundary + VoxelSize else boundary
    (boundary - pos) / dir

/-- The DDA walk of AVoxelWorldManager::VoxelRaycast.  State: current
position, per-axis TMax, accumulated T; a solid sample reports the hit
(position, entered-face normal, voxel), otherwise advance along the axis
with the smallest TMax. -/
def raycastLoop (s : AVoxelWorldManager) (step tdelta : FVector) (maxDistance : ℚ)
    (fuel : ℕ) (pos tmax : FVector) (t : ℚ) :
    Option (FVector × FVector × FVoxel) :=
  match fuel with
  | 0 => none
  | fuel + 1 =>
    if ¬t < maxDistance then none
    else
      let voxel := s.GetVoxelAtWorldPosition pos
      if voxel.IsSolid then
        let normal : FVector :=
          if tmax.1 < tmax.2.1 ∧ tmax.1 < tmax.2.2 then
            (if step.1 > 0 then -1 else 1, 0, 0)
          else if tmax.2.1 < tmax.2.2 then
            (0, if step.2.1 > 0 then -1 else 1, 0)
          else
            (0, 0, if step.2.2 > 0 then -1 else 1)
        some (pos, normal, voxel)
      else
        if tmax.1 < tmax.2.1 then
          if tmax.1 < tmax.2.2 then
            raycastLoop s step tdelta maxDistance fuel (pos.1 + step.1, pos.2.1, pos.2.2)
              (tmax.1 + tdelta.1, tmax.2.1, tmax.2.2) tmax.1
          else
            raycastLoop s step tdelta maxDistance fuel (pos.1, pos.2.1, pos.2.2 + step.2.2)
              (tmax.1, tmax.2.1, tmax.2.2 + tdelta.2.2) tmax.2.2
        else
          if tmax.2.1 < tmax.2.2 then
            raycastLoop s step tdelta maxDistance fuel (pos.1, pos.2.1 + step.2.1, pos.2.2)
              (tmax.1, tmax.2.1 + tdelta.2.1, tmax.2.2) tmax.2.1
          else
            raycastLoop s step tdelta maxDistance fuel (pos.1, pos.2.1, pos.2.2 + step.2.2)
              (tmax.1, tmax.2.1, tmax.2.2 + tdelta.2.2) tmax.2.2

/-- AVoxelWorldManager::VoxelRaycast: a fixed-step DDA voxel walk; none means
hit=false (out parameters untouched). -/
def VoxelRaycast (s : AVoxelWorldManager) (start endPos : FVector) :
    Option (FVector × FVector × FVoxel) :=
  let direction := (FVector.sub endPos start).GetSafeNormal
  let maxDistance := (FVector.sub endPos start).Size
  let voxelSize := s.WorldSettings.VoxelSize
  let step : FVector :=
    (if direction.1 ≥ 0 then voxelSize else -voxelSize,
     if direction.2.1 ≥ 0 then voxelSize else -voxelSize,
     if direction.2.2 ≥ 0 then voxelSize else -voxelSize)
  let tmax : FVector :=
    (raycastGetTMax voxelSize start.1 direction.1 step.1,
     raycastGetTMax voxelSize start.2.1 direction.2.1 step.2.1,
     raycastGetTMax voxelSize start.2.2 direction.2.2 step.2.2)
  let tdelta : FVector :=
    (if |direction.1| > FMath.SMALL_NUMBER then |voxelSize / direction.1| else FMath.MAX_FLT,
     if |direction.2.1| > FMath.SMALL_NUMBER then |voxelSize / direction.2.1| else FMath.MAX_FLT,
     if |direction.2.2| > FMath.SMALL_NUMBER then |voxelSize / direction.2.2| else FMath.MAX_FLT)
  let maxSteps := (FMath.CeilToInt (maxDistance / voxelSize) * 3).toNat
  raycastLoop s step tdelta maxDistance maxSteps start tmax 0

end AVoxelWorldManager

/-! ### Concrete scenario states and the chunk-store invariant,
used by the theorems below -/

/-- The settings used for the C3 counterexample: seed 12345, base height 96,
amplitude 16, one detail octave, caves and the plateau/valley/canyon
features disabled.  At (0, 0) every noise channel is sampled at integer
coordinates, so the terrain height is exactly 96 + 0.5 * 16 * 0.65 = 101.2. -/
def c3Settings : FVoxelWorldSettings :=
  { TerrainAmplitude := 16
    NoiseOctaves := 1
    bGenerateCaves := false
    BiomeSettings :=
      { bEnablePlateaus := false, bEnableValleys := false, bEnableCanyons := false } }

/-- A freshly constructed world manager: nothing loaded, nothing queued. -/
def emptyManager : AVoxelWorldManager where
  WorldSettings := {}
  TerrainGenerator := none
  CurrentLoadCenter := ⟨0, 0, 0⟩
  LoadedChunks := []
  ChunkPool := []
  ChunkGenerationQueue := []
  MeshBuildQueue := []
  Chunks := fun _ => AVoxelChunk.spawnDefault
  NextChunkId := 0
  ActiveAsyncTasks := 0
  bCancelAsyncTasks := false
  bIsInitialized := true

/-- Small world settings for the boundary-edit scenario. -/
def c4Settings : FVoxelWorldSettings :=
  { ChunkSize := 8, VoxelSize := 1 }

/-- A loaded chunk as it stands after generation and its initial mesh build:
voxel data allocated ((ChunkSize+1)^3 densities, ChunkSize^3 materials),
generated, mesh clean. -/
def c4Chunk (coord : FChunkCoord) : AVoxelChunk :=
  { AVoxelChunk.spawnDefault with
    ChunkCoord := coord
    WorldSettings := c4Settings
    DensityData := { Num := 729, Get := fun _ => 1 }
    MaterialData := { Num := 512, Get := fun _ => EVoxelType.Air }
    HasMarchingCubes := true
    ChunkState := EChunkState.Meshed
    bIsGenerated := true
    bNeedsMeshRebuild := false
    bHasVoxelData := true }

/-- Two face-adjacent loaded chunks: id 0 at (0,0,0), id 1 at (-1,0,0). -/
def c4Manager : AVoxelWorldManager :=
  { emptyManager with
    WorldSettings := c4Settings
    LoadedChunks := [(⟨0, 0, 0⟩, 0), (⟨-1, 0, 0⟩, 1)]
    Chunks := fun id =>
      if id = 0 then c4Chunk ⟨0, 0, 0⟩
      else if id = 1 then c4Chunk ⟨-1, 0, 0⟩
      else AVoxelChunk.spawnDefault
    NextChunkId := 2 }

/-- The manager after the boundary edit: SetVoxelAtWorldPosition at world
(0.5, 3.5, 3.5) writes local voxel (0,3,3) of chunk (0,0,0), on its x = 0
boundary against the loaded neighbour (-1,0,0). -/
def c4AfterEdit : AVoxelWorldManager :=
  c4Manager.SetVoxelAtWorldPosition (1/2, 7/2, 7/2) (FVoxel.make EVoxelType.Stone)

/-- The mesh-processing step after the boundary edit, with the BuildMesh
event list. -/
def c4AfterProcess : AVoxelWorldManager × List AVoxelChunk :=
  c4AfterEdit.ProcessMeshBuildQueueWithEvents

/-- The manager after a non-boundary edit at local voxel (3,3,3). -/
def c4AfterInteriorEdit : AVoxelWorldManager :=
  c4Manager.SetVoxelAtWorldPosition (7/2, 7/2, 7/2) (FVoxel.make EVoxelType.Stone)

/-- The chunk-store invariant: no coordinate is both loaded and queued for
generation, the generation queue has no duplicate coordinates, and the mesh
build queue has no duplicate chunk references. -/
def ChunkStoreInvariant (s : AVoxelWorldManager) : Prop :=
  (∀ p ∈ s.LoadedChunks, p.1 ∉ s.ChunkGenerationQueue) ∧
    s.ChunkGenerationQueue.Nodup ∧ s.MeshBuildQueue.Nodup


/-! ### Range facts about the noise primitives (claim C2) -/

namespace UVoxelNoiseGenerator

theorem Fade_bounds (t : ℚ) (h0 : 0 ≤ t) (h1 : t ≤ 1) : 0 ≤ Fade t ∧ Fade t ≤ 1 := by
  have hid : Fade t = t ^ 3 * (6 * t ^ 2 - 15 * t + 10) := by unfold Fade; ring
  have hid2 : Fade t = 1 - (1 - t) ^ 3 * (6 * t ^ 2 + 3 * t + 1) := by unfold Fade; ring
  have hp1 : 0 ≤ t ^ 3 * (6 * t ^ 2 - 15 * t + 10) := by
    have := sq_nonneg (t - 5 / 4)
    have := pow_nonneg h0 3
    nlinarith
  have hp2 : 0 ≤ (1 - t) ^ 3 * (6 * t ^ 2 + 3 * t + 1) := by
    have h1t : 0 ≤ 1 - t := by linarith
    have := pow_nonneg h1t 3
    nlinarith [sq_nonneg t]
  constructor
  · rw [hid]; exact hp1
  · rw [hid2]; linarith

theorem Lerp_bounds (lo hi a b t : ℚ) (ha : lo ≤ a) (ha2 : a ≤ hi) (hb : lo ≤ b)
    (hb2 : b ≤ hi) (ht0 : 0 ≤ t) (ht1 : t ≤ 1) : lo ≤ Lerp a b t ∧ Lerp a b t ≤ hi := by
  unfold Lerp
  constructor <;> nlinarith

theorem Gradient2D_bounds (hash : ℕ) (x y : ℚ) (hx1 : -1 ≤ x) (hx2 : x ≤ 1)
    (hy1 : -1 ≤ y) (hy2 : y ≤ 1) :
    -3 ≤ Gradient2D hash x y ∧ Gradient2D hash x y ≤ 3 := by
  unfold Gradient2D
  dsimp only
  constructor <;> (split_ifs <;> linarith)

theorem Gradient3D_bounds (hash : ℕ) (x y z : ℚ) (hx1 : -1 ≤ x) (hx2 : x ≤ 1)
    (hy1 : -1 ≤ y) (hy2 : y ≤ 1) (hz1 : -1 ≤ z) (hz2 : z ≤ 1) :
    -3 ≤ Gradient3D hash x y z ∧ Gradient3D hash x y z ≤ 3 := by
  unfold Gradient3D GradientVectors3D
  generalize hash % 16 % 16 = k
  have hk : k < 16 ∨ 16 ≤ k := Nat.lt_or_ge k 16
  rcases hk with hk | hk
  · interval_cases k <;> (simp only []; push_cast; constructor <;> linarith)
  · constructor <;>
      (rcases k with _ | _ | _ | _ | _ | _ | _ | _ | _ | _ | _ | _ | _ | _ | _ | _ | k <;>
        first
          | omega
          | (simp only []; push_cast; linarith))

theorem fract_bounds (x : ℚ) : 0 ≤ x - ((⌊x⌋ : ℤ) : ℚ) ∧ x - ((⌊x⌋ : ℤ) : ℚ) ≤ 1 := by
  constructor
  · have := Int.floor_le x; linarith
  · have := Int.lt_floor_add_one x; push_cast at *; linarith

theorem half_lo (r : ℚ) (h : -3 ≤ r) : -1 ≤ (r + 1) * (1 / 2) := by linarith

theorem half_hi (r : ℚ) (h : r ≤ 3) : (r + 1) * (1 / 2) ≤ 2 := by linarith

set_option maxHeartbeats 1000000 in
theorem GetNoise2D_bounds (g : UVoxelNoiseGenerator) (x y : ℚ) :
    -1 ≤ g.GetNoise2D x y ∧ g.GetNoise2D x y ≤ 2 := by
  obtain ⟨hxf0, hxf1⟩ := fract_bounds x
  obtain ⟨hyf0, hyf1⟩ := fract_bounds y
  unfold GetNoise2D
  simp only [FMath.FloorToFloat]
  set XF := x - ((⌊x⌋ : ℤ) : ℚ) with hXF
  set YF := y - ((⌊y⌋ : ℤ) : ℚ) with hYF
  obtain ⟨hu0, hu1⟩ := Fade_bounds XF hxf0 hxf1
  obtain ⟨hv0, hv1⟩ := Fade_bounds YF hyf0 hyf1
  set X0 := floorMask255 x with hX0
  set Y0 := floorMask255 y with hY0
  have g1 := Gradient2D_bounds (g.Permutation (g.Permutation X0 + Y0)) XF YF
    (by linarith) (by linarith) (by linarith) (by linarith)
  have g2 := Gradient2D_bounds (g.Permutation (g.Permutation ((X0 + 1) % 256) + Y0)) (XF - 1) YF
    (by linarith) (by linarith) (by linarith) (by linarith)
  have g3 := Gradient2D_bounds (g.Permutation (g.Permutation X0 + (Y0 + 1) % 256)) XF (YF - 1)
    (by linarith) (by linarith) (by linarith) (by linarith)
  have g4 := Gradient2D_bounds (g.Permutation (g.Permutation ((X0 + 1) % 256) + (Y0 + 1) % 256))
    (XF - 1) (YF - 1) (by linarith) (by linarith) (by linarith) (by linarith)
  have l1 := Lerp_bounds (-3) 3 _ _ (Fade XF) g1.1 g1.2 g2.1 g2.2 hu0 hu1
  have l2 := Lerp_bounds (-3) 3 _ _ (Fade XF) g3.1 g3.2 g4.1 g4.2 hu0 hu1
  have l3 := Lerp_bounds (-3) 3 _ _ (Fade YF) l1.1 l1.2 l2.1 l2.2 hv0 hv1
  constructor <;> nlinarith [l3.1, l3.2]

set_option maxHeartbeats 1000000 in
theorem GetNoise3D_bounds (g : UVoxelNoiseGenerator) (x y z : ℚ) :
    -1 ≤ g.GetNoise3D x y z ∧ g.GetNoise3D x y z ≤ 2 := by
  obtain ⟨hxf0, hxf1⟩ := fract_bounds x
  obtain ⟨hyf0, hyf1⟩ := fract_bounds y
  obtain ⟨hzf0, hzf1⟩ := fract_bounds z
  unfold GetNoise3D
  simp only [FMath.FloorToFloat]
  set XF := x - ((⌊x⌋ : ℤ) : ℚ) with hXF
  set YF := y - ((⌊y⌋ : ℤ) : ℚ) with hYF
  set ZF := z - ((⌊z⌋ : ℤ) : ℚ) with hZF
  obtain ⟨hu0, hu1⟩ := Fade_bounds XF hxf0 hxf1
  obtain ⟨hv0, hv1⟩ := Fade_bounds YF hyf0 hyf1
  obtain ⟨hw0, hw1⟩ := Fade_bounds ZF hzf0 hzf1
  set X0 := floorMask255 x with hX0
  set Y0 := floorMask255 y with hY0
  set Z0 := floorMask255 z with hZ0
  have g1 := Gradient3D_bounds (g.Permutation (g.Permutation (g.Permutation X0 + Y0) + Z0))
    XF YF ZF (by linarith) (by linarith) (by linarith) (by linarith) (by linarith) (by linarith)
  have g2 := Gradient3D_bounds
    (g.Permutation (g.Permutation (g.Permutation ((X0 + 1) % 256) + Y0) + Z0))
    (XF - 1) YF ZF (by linarith) (by linarith) (by linarith) (by linarith) (by linarith)
    (by linarith)
  have g3 := Gradient3D_bounds
    (g.Permutation (g.Permutation (g.Permutation X0 + Y0 + 1) + Z0))
    XF (YF - 1) ZF (by linarith) (by linarith) (by linarith) (by linarith) (by linarith)
    (by linarith)
  have g4 := Gradient3D_bounds
    (g.Permutation (g.Permutation (g.Permutation ((X0 + 1) % 256) + Y0 + 1) + Z0))
    (XF - 1) (YF - 1) ZF (by linarith) (by linarith) (by linarith) (by linarith) (by linarith)
    (by linarith)
  have g5 := Gradient3D_bounds
    (g.Permutation (g.Permutation (g.Permutation X0 + Y0) + Z0 + 1))
    XF YF (ZF - 1) (by linarith) (by linarith) (by linarith) (by linarith) (by linarith)
    (by linarith)
  have g6 := Gradient3D_bounds
    (g.Permutation (g.Permutation (g.Permutation ((X0 + 1) % 256) + Y0) + Z0 + 1))
    (XF - 1) YF (ZF - 1) (by linarith) (by linarith) (by linarith) (by linarith) (by linarith)
    (by linarith)
  have g7 := Gradient3D_bounds
    (g.Permutation (g.Permutation (g.Permutation X0 + Y0 + 1) + Z0 + 1))
    XF (YF - 1) (ZF - 1) (by linarith) (by linarith) (by linarith) (by linarith) (by linarith)
    (by linarith)
  have g8 := Gradient3D_bounds
    (g.Permutation (g.Permutation (g.Permutation ((X0 + 1) % 256) + Y0 + 1) + Z0 + 1))
    (XF - 1) (YF - 1) (ZF - 1) (by linarith) (by linarith) (by linarith) (by linarith)
    (by linarith) (by linarith)
  have l1 := Lerp_bounds (-3) 3 _ _ (Fade XF) g1.1 g1.2 g2.1 g2.2 hu0 hu1
  have l2 := Lerp_bounds (-3) 3 _ _ (Fade XF) g3.1 g3.2 g4.1 g4.2 hu0 hu1
  have l3 := Lerp_bounds (-3) 3 _ _ (Fade XF) g5.1 g5.2 g6.1 g6.2 hu0 hu1
  have l4 := Lerp_bounds (-3) 3 _ _ (Fade XF) g7.1 g7.2 g8.1 g8.2 hu0 hu1
  have m1 := Lerp_bounds (-3) 3 _ _ (Fade YF) l1.1 l1.2 l2.1 l2.2 hv0 hv1
  have m2 := Lerp_bounds (-3) 3 _ _ (Fade YF) l3.1 l3.2 l4.1 l4.2 hv0 hv1
  have w1 := Lerp_bounds (-3) 3 _ _ (Fade ZF) m1.1 m1.2 m2.1 m2.2 hw0 hw1
  constructor <;> nlinarith [w1.1, w1.2]

/-- One unfolding of the octave accumulator. -/
theorem octaveAcc_succ (f : ℚ → ℚ) (p l : ℚ) (n : ℕ) :
    octaveAcc f p l (n + 1) =
      (let st := octaveAcc f p l n
       (st.1 + f st.2.1 * st.2.2.1, st.2.1 * l, st.2.2.1 * p, st.2.2.2 + st.2.2.1)) := by
  unfold octaveAcc
  rw [List.range_succ, List.foldl_append]
  rfl

theorem octaveAcc_bounds (f : ℚ → ℚ) (p l : ℚ) (hf : ∀ q, -1 ≤ f q ∧ f q ≤ 2) (hp : 0 < p)
    (n : ℕ) :
    0 < (octaveAcc f p l n).2.2.1 ∧ 0 ≤ (octaveAcc f p l n).2.2.2 ∧
      -(octaveAcc f p l n).2.2.2 ≤ (octaveAcc f p l n).1 ∧
      (octaveAcc f p l n).1 ≤ 2 * (octaveAcc f p l n).2.2.2 ∧
      (1 ≤ n → 0 < (octaveAcc f p l n).2.2.2) := by
  induction n with
  | zero => simp [octaveAcc]
  | succ n ih =>
    obtain ⟨hamp, hmax, hlo, hhi, _⟩ := ih
    rw [octaveAcc_succ]
    dsimp only
    obtain ⟨hfl, hfh⟩ := hf (octaveAcc f p l n).2.1
    refine ⟨by positivity, by positivity, by nlinarith, by nlinarith, fun _ => by positivity⟩

theorem fractal_acc_div_bounds (t m : ℚ) (hm : 0 < m) (hlo : -m ≤ t) (hhi : t ≤ 2 * m) :
    -1 ≤ t / m ∧ t / m ≤ 2 := by
  constructor
  · rw [le_div_iff hm]; linarith
  · rw [div_le_iff hm]; linarith

end UVoxelNoiseGenerator

set_option maxRecDepth 4000000 in
/-- C2, counterexample: with the default seed 12345 the 2D noise exceeds 1
at (3.5, 221.5) (its value there is 1.25), so GetNoise2D does not map into
[0,1]. -/
theorem C2_counterexample :
    1 < (UVoxelNoiseGenerator.Initialize 12345).GetNoise2D (7 / 2) (443 / 2) := by
  with_unfolding_all decide

/-- C2 (amended): GetNoise2D and GetNoise3D return values in [-1, 2] (not
[0, 1]: the per-corner gradient terms reach magnitude 3 before the (n+1)/2
normalisation), and for every octave count >= 1 with positive persistence
and lacunarity the fractal variants, being amplitude-weighted averages of
base octaves, also return values in [-1, 2]. -/
theorem C2_noise_range (g : UVoxelNoiseGenerator) (x y z : ℚ) (octaves : ℕ)
    (persistence lacunarity : ℚ) (hoct : 1 ≤ octaves) (hp : 0 < persistence)
    (_hl : 0 < lacunarity) :
    (-1 ≤ g.GetNoise2D x y ∧ g.GetNoise2D x y ≤ 2) ∧
    (-1 ≤ g.GetNoise3D x y z ∧ g.GetNoise3D x y z ≤ 2) ∧
    (-1 ≤ g.GetFractalNoise2D x y octaves persistence lacunarity ∧
      g.GetFractalNoise2D x y octaves persistence lacunarity ≤ 2) ∧
    (-1 ≤ g.GetFractalNoise3D x y z octaves persistence lacunarity ∧
      g.GetFractalNoise3D x y z octaves persistence lacunarity ≤ 2) := by
  refine ⟨UVoxelNoiseGenerator.GetNoise2D_bounds g x y,
    UVoxelNoiseGenerator.GetNoise3D_bounds g x y z, ?_, ?_⟩
  · have h := UVoxelNoiseGenerator.octaveAcc_bounds
      (fun freq => g.GetNoise2D (x * freq) (y * freq)) persistence lacunarity
      (fun q => UVoxelNoiseGenerator.GetNoise2D_bounds g (x * q) (y * q)) hp octaves
    exact UVoxelNoiseGenerator.fractal_acc_div_bounds _ _ (h.2.2.2.2 hoct) h.2.2.1 h.2.2.2.1
  · have h := UVoxelNoiseGenerator.octaveAcc_bounds
      (fun freq => g.GetNoise3D (x * freq) (y * freq) (z * freq)) persistence lacunarity
      (fun q => UVoxelNoiseGenerator.GetNoise3D_bounds g (x * q) (y * q) (z * q)) hp octaves
    exact UVoxelNoiseGenerator.fractal_acc_div_bounds _ _ (h.2.2.2.2 hoct) h.2.2.1 h.2.2.2.1

/-- Witness for C2_noise_range at the default generator, octaves 4,
persistence 1/2, lacunarity 2. -/
theorem C2_noise_range_witness :
    (-1 ≤ (UVoxelNoiseGenerator.Initialize 12345).GetNoise2D 1 2 ∧
      (UVoxelNoiseGenerator.Initialize 12345).GetNoise2D 1 2 ≤ 2) ∧
    (-1 ≤ (UVoxelNoiseGenerator.Initialize 12345).GetNoise3D 1 2 3 ∧
      (UVoxelNoiseGenerator.Initialize 12345).GetNoise3D 1 2 3 ≤ 2) ∧
    (-1 ≤ (UVoxelNoiseGenerator.Initialize 12345).GetFractalNoise2D 1 2 4 (1/2) 2 ∧
      (UVoxelNoiseGenerator.Initialize 12345).GetFractalNoise2D 1 2 4 (1/2) 2 ≤ 2) ∧
    (-1 ≤ (UVoxelNoiseGenerator.Initialize 12345).GetFractalNoise3D 1 2 3 4 (1/2) 2 ∧
      (UVoxelNoiseGenerator.Initialize 12345).GetFractalNoise3D 1 2 3 4 (1/2) 2 ≤ 2) :=
  C2_noise_range (UVoxelNoiseGenerator.Initialize 12345) 1 2 3 4 (1/2) 2
    (by norm_num) (by norm_num) (by norm_num)

/-! ### Claim C3: the minimum-solid-thickness clamp versus the returned value -/

/-- The clamp-then-normalise tail of GetDensity: a negative result is at most
-(1/100) = -MinSolidThickness / 5. -/
theorem densityFinalize_neg (d : ℚ) :
    UVoxelTerrainGenerator.densityFinalize d < 0 →
      UVoxelTerrainGenerator.densityFinalize d ≤ -(1 / 100) := by
  unfold UVoxelTerrainGenerator.densityFinalize FMath.Clamp
  dsimp only
  by_cases h1 : d < 0 ∧ d > -(5 / 100)
  · rw [if_pos h1]
    split_ifs <;> intro h <;> linarith
  · rw [if_neg h1]
    split_ifs with h2 h3 <;> intro h
    · linarith
    · linarith
    · have hd0 : d < 0 := by linarith
      have hd5 : ¬d > -(5 / 100) := fun hgt => h1 ⟨hd0, hgt⟩
      push_neg at hd5
      linarith

set_option maxRecDepth 4000000 in
/-- C3, counterexample: GetDensity at (0, 0, 101) under c3Settings returns
-1/25 = -0.04, a negative value strictly inside (-0.05, 0): the
MinSolidThickness clamp is applied before the division by 5, so the
returned density can lie in (-epsilon, 0). -/
theorem C3_counterexample :
    UVoxelTerrainGenerator.GetDensity (UVoxelTerrainGenerator.Initialize c3Settings) 0 0 101 =
        -(1 / 25) ∧
      -(1 / 20) < -((1 : ℚ) / 25) ∧ -((1 : ℚ) / 25) < 0 := by
  refine ⟨?_, by norm_num, by norm_num⟩
  with_unfolding_all decide

/-- C3 (amended): the clamp guarantees survives the normalisation in scaled
form: whenever GetDensity returns a negative value, that value is at most
-MinSolidThickness / 5 = -0.01; the returned density never lies in the open
interval (-0.01, 0). -/
theorem C3_min_solid_thickness (g : UVoxelTerrainGenerator) (x y z : ℤ)
    (h : UVoxelTerrainGenerator.GetDensity g x y z < 0) :
    UVoxelTerrainGenerator.GetDensity g x y z ≤ -(1 / 100) := by
  revert h
  show UVoxelTerrainGenerator.densityFinalize _ < 0 → _
  exact densityFinalize_neg _

set_option maxRecDepth 4000000 in
/-- Witness for C3_min_solid_thickness: under c3Settings the density at
(0, 0, 50) is -1 (deep solid), which is negative, so the theorem applies. -/
theorem C3_min_solid_thickness_witness :
    UVoxelTerrainGenerator.GetDensity (UVoxelTerrainGenerator.Initialize c3Settings) 0 0 50 ≤
      -(1 / 100) :=
  C3_min_solid_thickness (UVoxelTerrainGenerator.Initialize c3Settings) 0 0 50
    (by with_unfolding_all decide)

/-! ### Claim C6: determinism of the seeded pipeline -/

/-- C6: the embedded pipeline is a pure function of (seed, settings,
coordinates): two noise generators initialised with the same seed, and two
terrain generators initialised with the same settings, agree bit-for-bit on
GetNoise2D, GetNoise3D, GetTerrainHeight, GetDensity and GetVoxelType at
every coordinate (no other mutable state exists in the embedding, mirroring
the source, whose only generator state is the seed-derived permutation
table and the immutable settings). -/
theorem C6_determinism (seed : ℤ) (settings : FVoxelWorldSettings)
    (g1 g2 : UVoxelNoiseGenerator) (t1 t2 : UVoxelTerrainGenerator)
    (h1 : g1 = UVoxelNoiseGenerator.Initialize seed)
    (h2 : g2 = UVoxelNoiseGenerator.Initialize seed)
    (ht1 : t1 = UVoxelTerrainGenerator.Initialize settings)
    (ht2 : t2 = UVoxelTerrainGenerator.Initialize settings) :
    (∀ x y : ℚ, g1.GetNoise2D x y = g2.GetNoise2D x y) ∧
    (∀ x y z : ℚ, g1.GetNoise3D x y z = g2.GetNoise3D x y z) ∧
    (∀ x y : ℤ, t1.GetTerrainHeight x y = t2.GetTerrainHeight x y) ∧
    (∀ x y z : ℤ, t1.GetDensity x y z = t2.GetDensity x y z) ∧
    (∀ x y z : ℤ, t1.GetVoxelType x y z = t2.GetVoxelType x y z) := by
  subst h1 h2 ht1 ht2
  exact ⟨fun _ _ => rfl, fun _ _ _ => rfl, fun _ _ => rfl, fun _ _ _ => rfl,
    fun _ _ _ => rfl⟩

/-- Witness for C6_determinism at seed 12345 and the default settings. -/
theorem C6_determinism_witness :
    (∀ x y : ℚ,
        (UVoxelNoiseGenerator.Initialize 12345).GetNoise2D x y =
          (UVoxelNoiseGenerator.Initialize 12345).GetNoise2D x y) ∧
    (∀ x y z : ℚ,
        (UVoxelNoiseGenerator.Initialize 12345).GetNoise3D x y z =
          (UVoxelNoiseGenerator.Initialize 12345).GetNoise3D x y z) ∧
    (∀ x y : ℤ,
        (UVoxelTerrainGenerator.Initialize {}).GetTerrainHeight x y =
          (UVoxelTerrainGenerator.Initialize {}).GetTerrainHeight x y) ∧
    (∀ x y z : ℤ,
        (UVoxelTerrainGenerator.Initialize {}).GetDensity x y z =
          (UVoxelTerrainGenerator.Initialize {}).GetDensity x y z) ∧
    (∀ x y z : ℤ,
        (UVoxelTerrainGenerator.Initialize {}).GetVoxelType x y z =
          (UVoxelTerrainGenerator.Initialize {}).GetVoxelType x y z) :=
  C6_determinism 12345 {} _ _ _ _ rfl rfl rfl rfl

/-! ### Claim C5: missing-neighbour fallback of GetDensityIncludingNeighbors -/

/-- C5: for a local coordinate outside the density bounds whose every
out-of-range axis has an invalid neighbour link, with a terrain generator
assigned, GetDensityIncludingNeighbors returns exactly the generator's
density at the equivalent world coordinate (chunk origin plus local offset),
never the hardcoded air default 1.0. -/
theorem C5_missing_neighbor_fallback (c : AVoxelChunk) (gen : UVoxelTerrainGenerator)
    (nXP nXN nYP nYN nZP nZN : Option AVoxelChunk) (x y z : ℤ)
    (hgen : c.TerrainGenerator = some gen)
    (hout : c.IsInDensityBounds x y z = false)
    (hXP : x > c.WorldSettings.ChunkSize → nXP = none)
    (hXN : x < 0 → nXN = none)
    (hYP : y > c.WorldSettings.ChunkSize → nYP = none)
    (hYN : y < 0 → nYN = none)
    (hZP : z > c.WorldSettings.ChunkSize → nZP = none)
    (hZN : z < 0 → nZN = none) :
    c.GetDensityIncludingNeighbors nXP nXN nYP nYN nZP nZN x y z =
      gen.GetDensity (c.ChunkCoord.X * c.WorldSettings.ChunkSize + x)
        (c.ChunkCoord.Y * c.WorldSettings.ChunkSize + y)
        (c.ChunkCoord.Z * c.WorldSettings.ChunkSize + z) := by
  unfold AVoxelChunk.GetDensityIncludingNeighbors
  rw [hout]
  simp only [Bool.false_eq_true, if_false]
  have noneXP : ¬(x > c.WorldSettings.ChunkSize ∧ nXP.isSome) := by
    rintro ⟨hgt, hs⟩; rw [hXP hgt] at hs; simp at hs
  have noneXN : ¬(x < 0 ∧ nXN.isSome) := by
    rintro ⟨hlt, hs⟩; rw [hXN hlt] at hs; simp at hs
  have noneYP : ¬(y > c.WorldSettings.ChunkSize ∧ nYP.isSome) := by
    rintro ⟨hgt, hs⟩; rw [hYP hgt] at hs; simp at hs
  have noneYN : ¬(y < 0 ∧ nYN.isSome) := by
    rintro ⟨hlt, hs⟩; rw [hYN hlt] at hs; simp at hs
  have noneZP : ¬(z > c.WorldSettings.ChunkSize ∧ nZP.isSome) := by
    rintro ⟨hgt, hs⟩; rw [hZP hgt] at hs; simp at hs
  have noneZN : ¬(z < 0 ∧ nZN.isSome) := by
    rintro ⟨hlt, hs⟩; rw [hZN hlt] at hs; simp at hs
  rw [dif_neg noneXP, dif_neg noneXN, dif_neg noneYP, dif_neg noneYN, dif_neg noneZP,
    dif_neg noneZN, hgen]

/-- Witness for C5_missing_neighbor_fallback: a freshly initialised chunk at
the origin with default settings (ChunkSize 32), no neighbours, queried one
cell east of its density grid. -/
theorem C5_missing_neighbor_fallback_witness :
    (AVoxelChunk.spawnDefault.InitializeChunk {} {}
          (some (UVoxelTerrainGenerator.Initialize {}))).GetDensityIncludingNeighbors
        none none none none none none 33 0 0 =
      (UVoxelTerrainGenerator.Initialize {}).GetDensity
        ((AVoxelChunk.spawnDefault.InitializeChunk {} {}
            (some (UVoxelTerrainGenerator.Initialize {}))).ChunkCoord.X *
            (AVoxelChunk.spawnDefault.InitializeChunk {} {}
              (some (UVoxelTerrainGenerator.Initialize {}))).WorldSettings.ChunkSize + 33)
        ((AVoxelChunk.spawnDefault.InitializeChunk {} {}
            (some (UVoxelTerrainGenerator.Initialize {}))).ChunkCoord.Y *
            (AVoxelChunk.spawnDefault.InitializeChunk {} {}
              (some (UVoxelTerrainGenerator.Initialize {}))).WorldSettings.ChunkSize + 0)
        ((AVoxelChunk.spawnDefault.InitializeChunk {} {}
            (some (UVoxelTerrainGenerator.Initialize {}))).ChunkCoord.Z *
            (AVoxelChunk.spawnDefault.InitializeChunk {} {}
              (some (UVoxelTerrainGenerator.Initialize {}))).WorldSettings.ChunkSize + 0) :=
  C5_missing_neighbor_fallback _ _ none none none none none none 33 0 0 rfl (by decide)
    (fun _ => rfl) (fun _ => rfl) (fun _ => rfl) (fun _ => rfl) (fun _ => rfl) (fun _ => rfl)

/-! ### Claim C1: seam-free densities at generated chunk boundaries -/

theorem foldl_write_Num {ι α : Type} (l : List ι) (idx : ι → ℕ) (val : ι → α)
    (d : TArrayData α) :
    (l.foldl (fun d t => d.write (idx t) (val t)) d).Num = d.Num := by
  induction l generalizing d with
  | nil => rfl
  | cons hd tl ih => exact (ih _).trans rfl

theorem foldl_write_get_of_forall_ne {ι α : Type} (l : List ι) (idx : ι → ℕ) (val : ι → α)
    (d : TArrayData α) (i : ℕ) (h : ∀ t ∈ l, idx t ≠ i) :
    (l.foldl (fun d t => d.write (idx t) (val t)) d).Get i = d.Get i := by
  induction l generalizing d with
  | nil => rfl
  | cons hd tl ih =>
    have step : ((d.write (idx hd) (val hd)).Get i) = d.Get i := by
      unfold TArrayData.write
      simp only []
      rw [if_neg]
      intro hi
      exact h hd (List.mem_cons_self hd tl) (hi ▸ rfl)
    calc (List.foldl (fun d t => d.write (idx t) (val t)) (d.write (idx hd) (val hd)) tl).Get i
        = (d.write (idx hd) (val hd)).Get i :=
          ih _ (fun t ht => h t (List.mem_cons_of_mem hd ht))
      _ = d.Get i := step

theorem foldl_write_get_eq {ι α : Type} (l : List ι) (idx : ι → ℕ) (val : ι → α)
    (d : TArrayData α) (t0 : ι) (hmem : t0 ∈ l)
    (hval : ∀ t ∈ l, idx t = idx t0 → val t = val t0) :
    (l.foldl (fun d t => d.write (idx t) (val t)) d).Get (idx t0) = val t0 := by
  induction l generalizing d t0 with
  | nil => cases hmem
  | cons hd tl ih =>
    by_cases hlater : ∃ t1 ∈ tl, idx t1 = idx t0
    · obtain ⟨t1, ht1, hidx⟩ := hlater
      have hv1 : val t1 = val t0 := hval t1 (List.mem_cons_of_mem hd ht1) hidx
      have := ih (d.write (idx hd) (val hd)) t1 ht1
        (fun t ht he => by
          rw [hval t (List.mem_cons_of_mem hd ht) (he.trans hidx), hv1])
      rw [hidx, hv1] at this
      exact this
    · push_neg at hlater
      have hne : ∀ t ∈ tl, idx t ≠ idx t0 := hlater
      have hd0 : t0 = hd := by
        rcases List.mem_cons.mp hmem with h | h
        · exact h
        · exact absurd rfl (hne t0 h)
      subst hd0
      calc (List.foldl (fun d t => d.write (idx t) (val t)) (d.write (idx t0) (val t0)) tl).Get
            (idx t0)
          = (d.write (idx t0) (val t0)).Get (idx t0) :=
            foldl_write_get_of_forall_ne tl idx val _ _ hne
        _ = val t0 := by unfold TArrayData.write; simp

theorem tripleRange_mem (count : ℕ) (t : ℕ × ℕ × ℕ) :
    t ∈ AVoxelChunk.tripleRange count ↔ t.1 < count ∧ t.2.1 < count ∧ t.2.2 < count := by
  obtain ⟨x, y, z⟩ := t
  unfold AVoxelChunk.tripleRange
  simp only [List.mem_flatMap, List.mem_map, List.mem_range]
  constructor
  · rintro ⟨z1, hz1, y1, hy1, x1, hx1, heq⟩
    cases heq
    exact ⟨hx1, hy1, hz1⟩
  · rintro ⟨h1, h2, h3⟩
    exact ⟨z, h3, y, h2, x, h1, rfl⟩

theorem digit3_inj {B x y z x2 y2 z2 : ℕ} (hx : x < B) (hy : y < B) (hz : z < B)
    (hx2 : x2 < B) (hy2 : y2 < B) (hz2 : z2 < B)
    (h : x + y * B + z * B * B = x2 + y2 * B + z2 * B * B) :
    x = x2 ∧ y = y2 ∧ z = z2 := by
  have hB : 0 < B := lt_of_le_of_lt (Nat.zero_le x) hx
  have h1 : x + (y + z * B) * B = x2 + (y2 + z2 * B) * B := by
    have e1 : x + (y + z * B) * B = x + y * B + z * B * B := by ring
    have e2 : x2 + (y2 + z2 * B) * B = x2 + y2 * B + z2 * B * B := by ring
    rw [e1, e2]; exact h
  have hxx : x = x2 := by
    have := congrArg (fun t => t % B) h1
    simpa [Nat.add_mul_mod_self_right, Nat.mod_eq_of_lt hx, Nat.mod_eq_of_lt hx2] using this
  subst hxx
  have h2 : (y + z * B) * B = (y2 + z2 * B) * B := by omega
  have h3 : y + z * B = y2 + z2 * B := Nat.eq_of_mul_eq_mul_right hB h2
  have hyy : y = y2 := by
    have := congrArg (fun t => t % B) h3
    simpa [Nat.add_mul_mod_self_right, Nat.mod_eq_of_lt hy, Nat.mod_eq_of_lt hy2] using this
  subst hyy
  refine ⟨rfl, rfl, ?_⟩
  have h4 : z * B = z2 * B := by omega
  exact Nat.eq_of_mul_eq_mul_right hB h4

theorem GetDensityIndex_toNat (c : AVoxelChunk) (hS : 0 ≤ c.WorldSettings.ChunkSize)
    (x y z : ℕ) :
    (c.GetDensityIndex x y z).toNat =
      x + y * (c.WorldSettings.ChunkSize.toNat + 1) +
        z * (c.WorldSettings.ChunkSize.toNat + 1) * (c.WorldSettings.ChunkSize.toNat + 1) := by
  unfold AVoxelChunk.GetDensityIndex
  simp only []
  have hcast : c.WorldSettings.ChunkSize = (c.WorldSettings.ChunkSize.toNat : ℤ) :=
    (Int.toNat_of_nonneg hS).symm
  have key : ((x : ℤ)) + (y : ℤ) * (c.WorldSettings.ChunkSize + 1) +
      (z : ℤ) * (c.WorldSettings.ChunkSize + 1) * (c.WorldSettings.ChunkSize + 1) =
      ((x + y * (c.WorldSettings.ChunkSize.toNat + 1) +
        z * (c.WorldSettings.ChunkSize.toNat + 1) * (c.WorldSettings.ChunkSize.toNat + 1) :
          ℕ) : ℤ) := by
    push_cast
    rw [hcast]
    simp only [Int.toNat_natCast]
  rw [key, Int.toNat_natCast]

theorem GenerateVoxelData_WorldSettings (c : AVoxelChunk) :
    c.GenerateVoxelData.WorldSettings = c.WorldSettings := by
  unfold AVoxelChunk.GenerateVoxelData
  split
  · rfl
  · split <;> rfl

theorem GenerateVoxelData_ChunkCoord (c : AVoxelChunk) :
    c.GenerateVoxelData.ChunkCoord = c.ChunkCoord := by
  unfold AVoxelChunk.GenerateVoxelData
  split
  · rfl
  · split <;> rfl

theorem GenerateVoxelData_TerrainGenerator (c : AVoxelChunk) :
    c.GenerateVoxelData.TerrainGenerator = c.TerrainGenerator := by
  unfold AVoxelChunk.GenerateVoxelData
  split
  · rfl
  · split <;> rfl

theorem GenerateVoxelData_hasData (c : AVoxelChunk) (gen : UVoxelTerrainGenerator)
    (hgen : c.TerrainGenerator = some gen) (hkill : c.bPendingKill = false) :
    c.GenerateVoxelData.bHasVoxelData = true := by
  unfold AVoxelChunk.GenerateVoxelData
  rw [hkill, hgen]
  rfl

theorem GenerateVoxelData_generated (c : AVoxelChunk) (gen : UVoxelTerrainGenerator)
    (hgen : c.TerrainGenerator = some gen) (hkill : c.bPendingKill = false) :
    c.GenerateVoxelData.bIsGenerated = true := by
  unfold AVoxelChunk.GenerateVoxelData
  rw [hkill, hgen]
  rfl

theorem GenerateVoxelData_densityNum (c : AVoxelChunk) (gen : UVoxelTerrainGenerator)
    (hgen : c.TerrainGenerator = some gen) (hkill : c.bPendingKill = false) :
    c.GenerateVoxelData.DensityData.Num = c.DensityData.Num := by
  unfold AVoxelChunk.GenerateVoxelData
  rw [hkill, hgen]
  exact foldl_write_Num _ _ _ _

theorem GenerateVoxelData_density_get (c : AVoxelChunk) (gen : UVoxelTerrainGenerator)
    (hgen : c.TerrainGenerator = some gen) (hkill : c.bPendingKill = false)
    (hS : 0 ≤ c.WorldSettings.ChunkSize) (x y z : ℕ)
    (hx : (x : ℤ) ≤ c.WorldSettings.ChunkSize) (hy : (y : ℤ) ≤ c.WorldSettings.ChunkSize)
    (hz : (z : ℤ) ≤ c.WorldSettings.ChunkSize) :
    c.GenerateVoxelData.DensityData.Get (c.GetDensityIndex x y z).toNat =
      gen.GetDensity (c.ChunkCoord.X * c.WorldSettings.ChunkSize + x)
        (c.ChunkCoord.Y * c.WorldSettings.ChunkSize + y)
        (c.ChunkCoord.Z * c.WorldSettings.ChunkSize + z) := by
  unfold AVoxelChunk.GenerateVoxelData
  rw [hkill, hgen]
  simp only []
  have hcount : ((c.WorldSettings.ChunkSize + 1).toNat) = c.WorldSettings.ChunkSize.toNat + 1 := by
    omega
  have hmem : ((x, y, z) : ℕ × ℕ × ℕ) ∈
      AVoxelChunk.tripleRange ((c.WorldSettings.ChunkSize + 1).toNat) := by
    rw [tripleRange_mem]
    refine ⟨?_, ?_, ?_⟩ <;> (simp only [hcount]; omega)
  have key := foldl_write_get_eq
    (AVoxelChunk.tripleRange ((c.WorldSettings.ChunkSize + 1).toNat))
    (fun t => (c.GetDensityIndex t.1 t.2.1 t.2.2).toNat)
    (fun t =>
      gen.GetDensity (c.ChunkCoord.X * c.WorldSettings.ChunkSize + t.1)
        (c.ChunkCoord.Y * c.WorldSettings.ChunkSize + t.2.1)
        (c.ChunkCoord.Z * c.WorldSettings.ChunkSize + t.2.2))
    c.DensityData ((x, y, z) : ℕ × ℕ × ℕ) hmem ?_
  · exact key
  · rintro ⟨a, b, e⟩ hmem2 hidx
    rw [tripleRange_mem] at hmem2
    obtain ⟨ha, hb, he⟩ := hmem2
    simp only [hcount] at ha hb he
    simp only [GetDensityIndex_toNat c hS] at hidx
    obtain ⟨rfl, rfl, rfl⟩ := digit3_inj ha hb he (by omega) (by omega) (by omega) hidx
    rfl

theorem initialized_generated_GetDensity (coord : FChunkCoord)
    (settings : FVoxelWorldSettings) (gen : UVoxelTerrainGenerator)
    (hS : 0 ≤ settings.ChunkSize) (x y z : ℕ)
    (hx : (x : ℤ) ≤ settings.ChunkSize) (hy : (y : ℤ) ≤ settings.ChunkSize)
    (hz : (z : ℤ) ≤ settings.ChunkSize) :
    ((AVoxelChunk.spawnDefault.InitializeChunk coord settings (some gen)).GenerateVoxelData).GetDensity
        x y z =
      gen.GetDensity (coord.X * settings.ChunkSize + x) (coord.Y * settings.ChunkSize + y)
        (coord.Z * settings.ChunkSize + z) := by
  set c0 := AVoxelChunk.spawnDefault.InitializeChunk coord settings (some gen) with hc0
  have hgen : c0.TerrainGenerator = some gen := rfl
  have hkill : c0.bPendingKill = false := rfl
  have hws : c0.WorldSettings = settings := rfl
  have hcc : c0.ChunkCoord = coord := rfl
  have hnum : c0.DensityData.Num =
      ((settings.ChunkSize + 1) * (settings.ChunkSize + 1) * (settings.ChunkSize + 1)).toNat :=
    rfl
  have hws1 : c0.GenerateVoxelData.WorldSettings = settings :=
    (GenerateVoxelData_WorldSettings c0).trans hws
  have hbounds : c0.GenerateVoxelData.IsInDensityBounds x y z = true := by
    unfold AVoxelChunk.IsInDensityBounds
    rw [hws1]
    simp only [decide_eq_true_eq]
    omega
  have hdata := GenerateVoxelData_hasData c0 gen hgen hkill
  have hidx : c0.GenerateVoxelData.GetDensityIndex x y z = c0.GetDensityIndex x y z := by
    unfold AVoxelChunk.GetDensityIndex
    rw [hws1, hws]
  have hnum1 : c0.GenerateVoxelData.DensityData.Num =
      ((settings.ChunkSize + 1) * (settings.ChunkSize + 1) * (settings.ChunkSize + 1)).toNat :=
    (GenerateVoxelData_densityNum c0 gen hgen hkill).trans hnum
  have hprod : (0 : ℤ) ≤ (settings.ChunkSize + 1) * (settings.ChunkSize + 1) *
      (settings.ChunkSize + 1) := by positivity
  have hidxval : c0.GetDensityIndex x y z =
      (x : ℤ) + (y : ℤ) * (settings.ChunkSize + 1) +
        (z : ℤ) * (settings.ChunkSize + 1) * (settings.ChunkSize + 1) := by
    unfold AVoxelChunk.GetDensityIndex
    rw [hws]
  have hlow : 0 ≤ c0.GetDensityIndex x y z := by
    rw [hidxval]
    have h1 : (0 : ℤ) ≤ (y : ℤ) * (settings.ChunkSize + 1) := by positivity
    have h2 : (0 : ℤ) ≤ (z : ℤ) * (settings.ChunkSize + 1) * (settings.ChunkSize + 1) := by
      positivity
    positivity
  have hhigh : c0.GetDensityIndex x y z < (c0.GenerateVoxelData.DensityData.Num : ℤ) := by
    rw [hnum1, Int.toNat_of_nonneg hprod, hidxval]
    have e : (settings.ChunkSize + 1) * (settings.ChunkSize + 1) * (settings.ChunkSize + 1) -
        ((x : ℤ) + (y : ℤ) * (settings.ChunkSize + 1) +
          (z : ℤ) * (settings.ChunkSize + 1) * (settings.ChunkSize + 1)) =
        (settings.ChunkSize - x) + (settings.ChunkSize - y) * (settings.ChunkSize + 1) +
          (settings.ChunkSize - z) * (settings.ChunkSize + 1) * (settings.ChunkSize + 1) + 1 := by
      ring
    have n1 : (0 : ℤ) ≤ (settings.ChunkSize - y) * (settings.ChunkSize + 1) := by
      apply mul_nonneg <;> omega
    have n2 : (0 : ℤ) ≤ (settings.ChunkSize - z) * (settings.ChunkSize + 1) *
        (settings.ChunkSize + 1) := by
      apply mul_nonneg
      apply mul_nonneg <;> omega
      omega
    omega
  unfold AVoxelChunk.GetDensity
  rw [hbounds, hdata]
  rw [if_neg (by simp)]
  rw [hidx, if_pos ⟨hlow, hhigh.trans_eq (by rw [hnum1])⟩]
  have := GenerateVoxelData_density_get c0 gen hgen hkill (hws ▸ hS) x y z (hws ▸ hx)
    (hws ▸ hy) (hws ▸ hz)
  rw [this, hcc, hws]

theorem GetDensityIncludingNeighbors_inBounds (c : AVoxelChunk)
    (n1 n2 n3 n4 n5 n6 : Option AVoxelChunk) (x y z : ℤ)
    (h : c.IsInDensityBounds x y z = true) :
    c.GetDensityIncludingNeighbors n1 n2 n3 n4 n5 n6 x y z = c.GetDensity x y z := by
  unfold AVoxelChunk.GetDensityIncludingNeighbors
  rw [h]
  simp

/-- C1: after two face-adjacent chunks at (cx,cy,cz) and (cx+1,cy,cz) have
each completed GenerateVoxelData, for every in-range local (y,z) the western
chunk's stored density at local x = ChunkSize and the eastern chunk's stored
density at local x = 0 both equal the terrain generator's density at the
shared world coordinate ((cx+1)*ChunkSize, cy*ChunkSize+y, cz*ChunkSize+z),
hence agree, and GetDensityIncludingNeighbors returns that stored value at
the boundary for every wiring of the six neighbour links. -/
theorem C1_boundary_density_agreement (gen : UVoxelTerrainGenerator)
    (settings : FVoxelWorldSettings) (cx cy cz : ℤ) (hS : 0 ≤ settings.ChunkSize)
    (y z : ℕ) (hy : (y : ℤ) ≤ settings.ChunkSize) (hz : (z : ℤ) ≤ settings.ChunkSize) :
    let west := (AVoxelChunk.spawnDefault.InitializeChunk ⟨cx, cy, cz⟩ settings
      (some gen)).GenerateVoxelData
    let east := (AVoxelChunk.spawnDefault.InitializeChunk ⟨cx + 1, cy, cz⟩ settings
      (some gen)).GenerateVoxelData
    west.GetDensity settings.ChunkSize y z =
        gen.GetDensity ((cx + 1) * settings.ChunkSize) (cy * settings.ChunkSize + y)
          (cz * settings.ChunkSize + z) ∧
      east.GetDensity 0 y z =
        gen.GetDensity ((cx + 1) * settings.ChunkSize) (cy * settings.ChunkSize + y)
          (cz * settings.ChunkSize + z) ∧
      west.GetDensity settings.ChunkSize y z = east.GetDensity 0 y z ∧
      (∀ n1 n2 n3 n4 n5 n6 : Option AVoxelChunk,
        west.GetDensityIncludingNeighbors n1 n2 n3 n4 n5 n6 settings.ChunkSize y z =
          west.GetDensity settings.ChunkSize y z) ∧
      (∀ n1 n2 n3 n4 n5 n6 : Option AVoxelChunk,
        east.GetDensityIncludingNeighbors n1 n2 n3 n4 n5 n6 0 y z =
          east.GetDensity 0 y z) := by
  intro west east
  have hcs : ((settings.ChunkSize.toNat : ℤ)) = settings.ChunkSize := Int.toNat_of_nonneg hS
  have hwest := initialized_generated_GetDensity ⟨cx, cy, cz⟩ settings gen hS
    settings.ChunkSize.toNat y z (by omega) hy hz
  have heast := initialized_generated_GetDensity ⟨cx + 1, cy, cz⟩ settings gen hS
    0 y z (by omega) hy hz
  rw [hcs] at hwest
  have ew : cx * settings.ChunkSize + settings.ChunkSize = (cx + 1) * settings.ChunkSize := by
    ring
  rw [ew] at hwest
  have e0 : (cx + 1) * settings.ChunkSize + ((0 : ℕ) : ℤ) = (cx + 1) * settings.ChunkSize := by
    simp
  rw [e0] at heast
  have hwsw : west.WorldSettings = settings := GenerateVoxelData_WorldSettings _
  have hwse : east.WorldSettings = settings := GenerateVoxelData_WorldSettings _
  have hbw : west.IsInDensityBounds settings.ChunkSize y z = true := by
    unfold AVoxelChunk.IsInDensityBounds
    rw [hwsw]
    simp only [decide_eq_true_eq]
    omega
  have hbe : east.IsInDensityBounds 0 y z = true := by
    unfold AVoxelChunk.IsInDensityBounds
    rw [hwse]
    simp only [decide_eq_true_eq]
    omega
  have hcast0 : (((0 : ℕ) : ℤ)) = (0 : ℤ) := by simp
  rw [hcast0] at heast
  refine ⟨hwest, heast, hwest.trans heast.symm, ?_, ?_⟩
  · intro n1 n2 n3 n4 n5 n6
    exact GetDensityIncludingNeighbors_inBounds west n1 n2 n3 n4 n5 n6 _ _ _ hbw
  · intro n1 n2 n3 n4 n5 n6
    exact GetDensityIncludingNeighbors_inBounds east n1 n2 n3 n4 n5 n6 _ _ _ hbe

/-- Witness for C1_boundary_density_agreement: default settings, seed-12345
generator, chunks (0,0,0) and (1,0,0), local y = z = 0. -/
theorem C1_boundary_density_agreement_witness :
    let west := (AVoxelChunk.spawnDefault.InitializeChunk ⟨0, 0, 0⟩ {}
      (some (UVoxelTerrainGenerator.Initialize {}))).GenerateVoxelData
    let east := (AVoxelChunk.spawnDefault.InitializeChunk ⟨0 + 1, 0, 0⟩ {}
      (some (UVoxelTerrainGenerator.Initialize {}))).GenerateVoxelData
    west.GetDensity (FVoxelWorldSettings.ChunkSize {}) 0 0 =
        (UVoxelTerrainGenerator.Initialize {}).GetDensity
          ((0 + 1) * FVoxelWorldSettings.ChunkSize {}) (0 * FVoxelWorldSettings.ChunkSize {} + 0)
          (0 * FVoxelWorldSettings.ChunkSize {} + 0) ∧
      east.GetDensity 0 0 0 =
        (UVoxelTerrainGenerator.Initialize {}).GetDensity
          ((0 + 1) * FVoxelWorldSettings.ChunkSize {}) (0 * FVoxelWorldSettings.ChunkSize {} + 0)
          (0 * FVoxelWorldSettings.ChunkSize {} + 0) ∧
      west.GetDensity (FVoxelWorldSettings.ChunkSize {}) 0 0 = east.GetDensity 0 0 0 ∧
      (∀ n1 n2 n3 n4 n5 n6 : Option AVoxelChunk,
        west.GetDensityIncludingNeighbors n1 n2 n3 n4 n5 n6 (FVoxelWorldSettings.ChunkSize {})
            0 0 =
          west.GetDensity (FVoxelWorldSettings.ChunkSize {}) 0 0) ∧
      (∀ n1 n2 n3 n4 n5 n6 : Option AVoxelChunk,
        east.GetDensityIncludingNeighbors n1 n2 n3 n4 n5 n6 0 0 0 =
          east.GetDensity 0 0 0) :=
  C1_boundary_density_agreement (UVoxelTerrainGenerator.Initialize {}) {} 0 0 0 (by decide)
    0 0 (by decide) (by decide)

/-! ### Claim C10: unloaded or ungenerated regions read as air -/

theorem GetVoxelAtWorldPosition_air (s : AVoxelWorldManager) (p : FVector)
    (h : ∀ id, s.GetChunk (s.WorldToLocalVoxelCoord p).1 = some id →
      ¬((s.Chunks id).bIsGenerated ∧ (s.Chunks id).bHasVoxelData)) :
    s.GetVoxelAtWorldPosition p = FVoxel.make EVoxelType.Air := by
  cases hg : s.GetChunk (s.WorldToLocalVoxelCoord p).1 with
  | none => simp only [AVoxelWorldManager.GetVoxelAtWorldPosition, hg]
  | some id =>
    simp only [AVoxelWorldManager.GetVoxelAtWorldPosition, hg]
    rw [if_neg (h id hg)]

theorem raycastLoop_no_hit (s : AVoxelWorldManager) (step tdelta : FVector)
    (maxDistance : ℚ)
    (hair : ∀ q : FVector, (s.GetVoxelAtWorldPosition q).IsSolid = false) :
    ∀ (fuel : ℕ) (pos tmax : FVector) (t : ℚ),
      AVoxelWorldManager.raycastLoop s step tdelta maxDistance fuel pos tmax t = none := by
  intro fuel
  induction fuel with
  | zero => intro pos tmax t; rfl
  | succ n ih =>
    intro pos tmax t
    unfold AVoxelWorldManager.raycastLoop
    by_cases ht : ¬t < maxDistance
    · rw [if_pos ht]
    · rw [if_neg ht]
      simp only [hair, Bool.false_eq_true, if_false]
      split
      · split
        · exact ih _ _ _
        · exact ih _ _ _
      · split
        · exact ih _ _ _
        · exact ih _ _ _

theorem VoxelRaycast_no_hit (s : AVoxelWorldManager) (start endPos : FVector)
    (hair : ∀ q : FVector, (s.GetVoxelAtWorldPosition q).IsSolid = false) :
    s.VoxelRaycast start endPos = none := by
  unfold AVoxelWorldManager.VoxelRaycast
  exact raycastLoop_no_hit s _ _ _ hair _ _ _ _

/-- Counterexample to C10 as stated: on a manager with no loaded chunks the
fallback voxel returned by GetVoxelAtWorldPosition has Type Air but Density
255 (the FVoxel(EVoxelType) constructor defaults the density byte to 255),
not Density 0 as the claim says. -/
theorem C10_counterexample :
    (emptyManager.GetVoxelAtWorldPosition (0, 0, 0)).Ty = EVoxelType.Air ∧
      (emptyManager.GetVoxelAtWorldPosition (0, 0, 0)).Density ≠ 0 := by
  constructor <;> with_unfolding_all decide

/-- C10 (amended): whenever every loaded chunk is either not yet generated or
has had its voxel data unloaded (and in particular for positions whose owning
coordinate is absent from the loaded map), GetVoxelAtWorldPosition returns
the air fallback FVoxel.make Air — Type Air, Density 255 — at every world
position, and VoxelRaycast through such a manager reports no hit. -/
theorem C10_unloaded_reads_air (s : AVoxelWorldManager)
    (h : ∀ (c : FChunkCoord) (id : ChunkId), s.GetChunk c = some id →
      ¬((s.Chunks id).bIsGenerated ∧ (s.Chunks id).bHasVoxelData)) :
    (∀ p : FVector, s.GetVoxelAtWorldPosition p = FVoxel.make EVoxelType.Air ∧
      (s.GetVoxelAtWorldPosition p).Ty = EVoxelType.Air ∧
      (s.GetVoxelAtWorldPosition p).Density = 255) ∧
    ∀ start endPos : FVector, s.VoxelRaycast start endPos = none := by
  have hvox : ∀ p : FVector, s.GetVoxelAtWorldPosition p = FVoxel.make EVoxelType.Air :=
    fun p => GetVoxelAtWorldPosition_air s p fun id hg => h _ id hg
  have hsolid : ∀ q : FVector, (s.GetVoxelAtWorldPosition q).IsSolid = false := by
    intro q
    rw [hvox q]
    rfl
  refine ⟨fun p => ⟨hvox p, ?_, ?_⟩, fun a b => VoxelRaycast_no_hit s a b hsolid⟩
  · rw [hvox p]
    rfl
  · rw [hvox p]
    rfl

/-- Witness for C10_unloaded_reads_air: the empty manager, position (0,0,0)
and a ray from the origin to (500,0,0). -/
theorem C10_unloaded_reads_air_witness :
    emptyManager.GetVoxelAtWorldPosition (0, 0, 0) = FVoxel.make EVoxelType.Air ∧
      emptyManager.VoxelRaycast (0, 0, 0) (500, 0, 0) = none := by
  have key := C10_unloaded_reads_air emptyManager (by
    intro c id hg
    simp [AVoxelWorldManager.GetChunk, AVoxelWorldManager.mapFind, emptyManager] at hg)
  exact ⟨(key.1 (0, 0, 0)).1, key.2 (0, 0, 0) (500, 0, 0)⟩

/-! ### Claim C4: boundary edits and the neighbour's mesh-dirty flag -/

set_option maxRecDepth 100000 in
/-- C4: editing the boundary voxel (local 0,3,3) of chunk (0,0,0) sets the
owner's bNeedsMeshRebuild and enqueues the loaded (-1,0,0) neighbour, but
never sets the neighbour's bNeedsMeshRebuild; the next ProcessMeshBuildQueue
then pops the clean neighbour and drops it without building (only the owner
reaches BuildMesh), so the neighbour's mesh is never rebuilt.  A non-boundary
edit queues and dirties the owner only, as the claim says. -/
theorem C4_neighbor_never_rebuilt :
    (c4AfterEdit.Chunks 0).bNeedsMeshRebuild = true ∧
      c4AfterEdit.MeshBuildQueue = [0, 1] ∧
      (c4AfterEdit.Chunks 1).bNeedsMeshRebuild = false ∧
      c4AfterProcess.2.length = 1 ∧
      (∀ c ∈ c4AfterProcess.2, c.ChunkCoord = ⟨0, 0, 0⟩) ∧
      c4AfterProcess.1.MeshBuildQueue = [] ∧
      (c4AfterProcess.1.Chunks 1).bNeedsMeshRebuild = false ∧
      (c4AfterInteriorEdit.Chunks 0).bNeedsMeshRebuild = true ∧
      c4AfterInteriorEdit.MeshBuildQueue = [0] ∧
      (c4AfterInteriorEdit.Chunks 1).bNeedsMeshRebuild = false := by
  with_unfolding_all decide

/-! ### Claim C7: chunks are never meshed before generation completes -/

theorem BuildMeshWithLOD_not_generated (c : AVoxelChunk) (lod : EVoxelLOD)
    (hgen : c.bIsGenerated = false) : c.BuildMeshWithLOD lod = (c, false) := by
  unfold AVoxelChunk.BuildMeshWithLOD
  split
  · rfl
  · split
    · rfl
    · rename_i hcond
      exact absurd (Or.inl (by simp [hgen])) hcond

theorem foldl_addToMesh_mem (l : List ChunkId) :
    ∀ (s : AVoxelWorldManager) (x : ChunkId),
      x ∈ l ∨ x ∈ s.MeshBuildQueue →
      x ∈ (l.foldl AVoxelWorldManager.addToMeshBuildQueueUnique s).MeshBuildQueue := by
  induction l with
  | nil =>
    intro s x h
    rcases h with h | h
    · cases h
    · exact h
  | cons a t ih =>
    intro s x h
    apply ih
    rcases h with h | h
    · rcases List.mem_cons.mp h with rfl | ht
      · right
        unfold AVoxelWorldManager.addToMeshBuildQueueUnique
        split
        · assumption
        · exact List.mem_append_right _ (List.mem_singleton.mpr rfl)
      · left
        exact ht
    · right
      unfold AVoxelWorldManager.addToMeshBuildQueueUnique
      split
      · exact h
      · exact List.mem_append_left _ h

theorem processMeshLoop_requeue_mono (fuel : ℕ) :
    ∀ (s : AVoxelWorldManager) (built : ℕ) (requeue : List ChunkId)
      (events : List AVoxelChunk) (x : ChunkId), x ∈ requeue →
      x ∈ (AVoxelWorldManager.processMeshLoop fuel s built requeue events).2.1 := by
  induction fuel with
  | zero =>
    intro s built requeue events x hx
    exact hx
  | succ n ih =>
    intro s built requeue events x hx
    unfold AVoxelWorldManager.processMeshLoop
    split
    · exact hx
    · split
      · exact hx
      · split
        · exact hx
        · dsimp only
          split
          · exact ih _ _ _ _ _ hx
          · split
            · exact ih _ _ _ _ _ (List.mem_append_left _ hx)
            · split
              · exact ih _ _ _ _ _ hx
              · exact ih _ _ _ _ _ hx

theorem processMeshLoop_events_generated (fuel : ℕ) :
    ∀ (s : AVoxelWorldManager) (built : ℕ) (requeue : List ChunkId)
      (events : List AVoxelChunk),
      (∀ c ∈ events, c.bIsGenerated = true) →
      ∀ c ∈ (AVoxelWorldManager.processMeshLoop fuel s built requeue events).2.2,
        c.bIsGenerated = true := by
  induction fuel with
  | zero =>
    intro s built requeue events h
    exact h
  | succ n ih =>
    intro s built requeue events h
    unfold AVoxelWorldManager.processMeshLoop
    split
    · exact h
    · split
      · exact h
      · split
        · exact h
        · dsimp only
          split
          · exact ih _ _ _ _ h
          · split
            · exact ih _ _ _ _ h
            · split
              · rename_i hkill hgen hdirty
                apply ih
                intro c hc
                rcases List.mem_append.mp hc with h1 | h2
                · exact h c h1
                · rw [List.mem_singleton.mp h2]
                  have := not_not.mp hgen
                  simpa using this
              · exact ih _ _ _ _ h

theorem processMeshLoop_requeues_head (s : AVoxelWorldManager) (id : ChunkId)
    (rest : List ChunkId) (hq : s.MeshBuildQueue = id :: rest) (n built : ℕ)
    (hbuilt : built < s.WorldSettings.MeshBuildsPerFrame)
    (hcancel : s.bCancelAsyncTasks = false)
    (hkill : (s.Chunks id).bPendingKill = false)
    (hgen : (s.Chunks id).bIsGenerated = false)
    (requeue : List ChunkId) (events : List AVoxelChunk) :
    id ∈ (AVoxelWorldManager.processMeshLoop (n + 1) s built requeue events).2.1 := by
  unfold AVoxelWorldManager.processMeshLoop
  split
  · rename_i hcond
    exact absurd ⟨by simp [hq], hbuilt⟩ hcond
  · split
    · rename_i hcond
      rw [hcancel] at hcond
      cases hcond
    · split
      · rename_i h0
        rw [hq] at h0
        cases h0
      · rename_i id' rest' h0
        rw [hq] at h0
        injection h0 with h1 h2
        subst h1
        subst h2
        dsimp only
        split
        · rename_i hcond
          rw [hkill] at hcond
          cases hcond
        · split
          · exact processMeshLoop_requeue_mono n _ _ _ _ id
              (List.mem_append_right _ (List.mem_singleton.mpr rfl))
          · rename_i hcond
            exact absurd (by simp [hgen]) hcond

/-- C7: in the mesh-processing step, every chunk record handed to BuildMesh
during ProcessMeshBuildQueue has its generation flag set; BuildMeshWithLOD
itself returns without reaching the mesh-building step on an ungenerated
chunk; and a live ungenerated chunk pulled from the front of the mesh queue
is re-queued (it is back in the mesh build queue when the step finishes). -/
theorem C7_never_meshed_before_generated (s : AVoxelWorldManager) :
    (∀ c ∈ s.ProcessMeshBuildQueueWithEvents.2, c.bIsGenerated = true) ∧
      (∀ (c : AVoxelChunk) (lod : EVoxelLOD), c.bIsGenerated = false →
        c.BuildMeshWithLOD lod = (c, false)) ∧
      (∀ (id : ChunkId) (rest : List ChunkId), s.MeshBuildQueue = id :: rest →
        s.bCancelAsyncTasks = false →
        0 < s.WorldSettings.MeshBuildsPerFrame →
        (s.Chunks id).bPendingKill = false →
        (s.Chunks id).bIsGenerated = false →
        id ∈ s.ProcessMeshBuildQueueWithEvents.1.MeshBuildQueue) := by
  refine ⟨?_, fun c lod h => BuildMeshWithLOD_not_generated c lod h, ?_⟩
  · unfold AVoxelWorldManager.ProcessMeshBuildQueueWithEvents
    split
    · intro c hc
      cases hc
    · dsimp only
      exact processMeshLoop_events_generated _ _ _ _ _ (fun c hc => by cases hc)
  · intro id rest hq hcancel hbudget hkill hgen
    unfold AVoxelWorldManager.ProcessMeshBuildQueueWithEvents
    split
    · rename_i hcond
      rw [hcancel] at hcond
      cases hcond
    · dsimp only
      apply foldl_addToMesh_mem
      left
      have hlen : s.MeshBuildQueue.length = rest.length + 1 := by
        rw [hq]
        rfl
      rw [hlen]
      exact processMeshLoop_requeues_head s id rest hq rest.length 0 hbudget hcancel hkill hgen
        [] []

/-- Witness for C7_never_meshed_before_generated: the empty manager with one
never-generated chunk (id 0) queued for meshing; after the step the chunk is
back in the mesh build queue. -/
theorem C7_never_meshed_before_generated_witness :
    0 ∈ ({ emptyManager with
        MeshBuildQueue := [0] } : AVoxelWorldManager).ProcessMeshBuildQueueWithEvents.1.MeshBuildQueue :=
  (C7_never_meshed_before_generated _).2.2 0 [] rfl rfl (by decide) rfl rfl

/-! ### Claim C8: the chunk-store invariant -/

theorem INV_updateChunk (s : AVoxelWorldManager) (id : ChunkId) (f : AVoxelChunk → AVoxelChunk)
    (h : ChunkStoreInvariant s) : ChunkStoreInvariant (AVoxelWorldManager.updateChunk s id f) :=
  ⟨h.1, h.2.1, h.2.2⟩

theorem INV_addMesh (s : AVoxelWorldManager) (id : ChunkId)
    (h : ChunkStoreInvariant s) :
    ChunkStoreInvariant (AVoxelWorldManager.addToMeshBuildQueueUnique s id) := by
  unfold AVoxelWorldManager.addToMeshBuildQueueUnique
  split
  · exact h
  · rename_i hid
    refine ⟨h.1, h.2.1, ?_⟩
    rw [List.nodup_append]
    exact ⟨h.2.2, List.nodup_singleton id,
      fun a ha hb => hid (by rwa [List.mem_singleton.mp hb] at ha)⟩

theorem mapFind_none_not_mem (m : List (FChunkCoord × ChunkId)) (c : FChunkCoord)
    (hnone : AVoxelWorldManager.mapFind m c = none) :
    ∀ q ∈ m, q.1 = c → False := by
  intro q hq hqc
  unfold AVoxelWorldManager.mapFind at hnone
  rw [Option.map_eq_none'] at hnone
  rw [List.find?_eq_none] at hnone
  exact hnone q hq (by simp [hqc])

theorem RecycleChunk_inv (s : AVoxelWorldManager) (c : FChunkCoord)
    (h : ChunkStoreInvariant s) : ChunkStoreInvariant (s.RecycleChunk c) := by
  unfold AVoxelWorldManager.RecycleChunk
  split
  · exact ⟨fun p hp => h.1 p (List.mem_of_mem_filter hp), h.2.1, h.2.2⟩
  · dsimp only
    split
    · exact ⟨fun p hp => h.1 p (List.mem_of_mem_filter hp), h.2.1, h.2.2.filter _⟩
    · exact ⟨fun p hp => h.1 p (List.mem_of_mem_filter hp), h.2.1, h.2.2.filter _⟩

theorem CreateOrGetChunk_inv (s : AVoxelWorldManager) (c : FChunkCoord)
    (h : ChunkStoreInvariant s) (hc : c ∉ s.ChunkGenerationQueue) :
    ChunkStoreInvariant (s.CreateOrGetChunk c).1 := by
  unfold AVoxelWorldManager.CreateOrGetChunk
  split
  · exact h
  · dsimp only
    by_cases hp : s.WorldSettings.bEnableChunkPooling ∧ s.ChunkPool ≠ []
    · simp only [if_pos hp]
      refine ⟨?_, h.2.1, h.2.2⟩
      intro q hq hm
      rcases List.mem_append.mp hq with h1 | h2
      · exact h.1 q h1 hm
      · rw [List.mem_singleton.mp h2] at hm
        exact hc hm
    · simp only [if_neg hp]
      refine ⟨?_, h.2.1, h.2.2⟩
      intro q hq hm
      rcases List.mem_append.mp hq with h1 | h2
      · exact h.1 q h1 hm
      · rw [List.mem_singleton.mp h2] at hm
        exact hc hm

theorem foldl_inv_generic {β : Type} (f : AVoxelWorldManager → β → AVoxelWorldManager)
    (l : List β) (hf : ∀ t b, ChunkStoreInvariant t → ChunkStoreInvariant (f t b)) :
    ∀ t, ChunkStoreInvariant t → ChunkStoreInvariant (l.foldl f t) := by
  induction l with
  | nil => intro t ht; exact ht
  | cons a tl ih => intro t ht; exact ih _ (hf t a ht)

theorem keepStep_inv (R : ℚ) (st : List FChunkCoord × AVoxelWorldManager) (c : FChunkCoord)
    (h : ChunkStoreInvariant st.2) :
    ChunkStoreInvariant (AVoxelWorldManager.keepStep R st c).2 := by
  unfold AVoxelWorldManager.keepStep
  dsimp only
  split
  · split
    · rename_i hcond
      dsimp only
      refine ⟨?_, ?_, h.2.2⟩
      · intro q hq hm
        rcases List.mem_append.mp hm with h1 | h2
        · exact h.1 q hq h1
        · have hqc := List.mem_singleton.mp h2
          have hnone : AVoxelWorldManager.mapFind st.2.LoadedChunks c = none := by
            rcases hfind : AVoxelWorldManager.mapFind st.2.LoadedChunks c with _ | id
            · rfl
            · exact absurd (by rw [hfind]; rfl) hcond.1
          exact mapFind_none_not_mem _ _ hnone q hq hqc
      · rw [List.nodup_append]
        exact ⟨h.2.1, List.nodup_singleton c,
          fun a ha hb => hcond.2 (by rwa [List.mem_singleton.mp hb] at ha)⟩
    · exact h
  · exact h

theorem foldl_keepStep_inv (R : ℚ) (l : List FChunkCoord) :
    ∀ (st : List FChunkCoord × AVoxelWorldManager), ChunkStoreInvariant st.2 →
      ChunkStoreInvariant ((l.foldl (AVoxelWorldManager.keepStep R) st)).2 := by
  induction l with
  | nil => intro st h; exact h
  | cons a tl ih => intro st h; exact ih _ (keepStep_inv R st a h)

theorem UpdateChunkLoading_inv (s : AVoxelWorldManager) (h : ChunkStoreInvariant s) :
    ChunkStoreInvariant s.UpdateChunkLoading := by
  unfold AVoxelWorldManager.UpdateChunkLoading
  split
  · exact h
  · dsimp only
    apply foldl_inv_generic _ _ (fun t c ht => RecycleChunk_inv t c ht)
    have h1 := foldl_keepStep_inv ((s.WorldSettings.RenderDistance : ℤ) : ℚ)
      (AVoxelWorldManager.loadCandidates s.CurrentLoadCenter s.WorldSettings.RenderDistance
        s.WorldSettings.WorldHeightChunks) ([], s) h
    refine ⟨?_, ?_, h1.2.2⟩
    · intro q hq hm
      exact h1.1 q hq ((List.mergeSort_perm _ _).subset hm)
    · exact ((List.mergeSort_perm _ _).nodup_iff).mpr h1.2.1

theorem processGenLoop_inv (fuel : ℕ) :
    ∀ (s : AVoxelWorldManager) (processed : ℕ), ChunkStoreInvariant s →
      ChunkStoreInvariant (AVoxelWorldManager.processGenLoop fuel s processed) := by
  induction fuel with
  | zero => intro s pr h; exact h
  | succ n ih =>
    intro s pr h
    unfold AVoxelWorldManager.processGenLoop
    split
    · exact h
    · split
      · exact h
      · split
        · exact h
        · rename_i coord rest hG
          dsimp only
          have h' : ChunkStoreInvariant
              ({ s with ChunkGenerationQueue := rest } : AVoxelWorldManager) := by
            refine ⟨?_, ?_, h.2.2⟩
            · intro p hp
              have hm := h.1 p hp
              rw [hG] at hm
              exact fun hmem => hm (List.mem_cons_of_mem _ hmem)
            · have hnd := h.2.1
              rw [hG] at hnd
              exact hnd.of_cons
          have hcoord : coord ∉
              ({ s with ChunkGenerationQueue := rest } : AVoxelWorldManager).ChunkGenerationQueue := by
            have hnd := h.2.1
            rw [hG] at hnd
            exact (List.nodup_cons.mp hnd).1
          have hcg := CreateOrGetChunk_inv { s with ChunkGenerationQueue := rest } coord h' hcoord
          split
          · apply ih
            apply INV_addMesh
            split
            · exact ⟨hcg.1, hcg.2.1, hcg.2.2⟩
            · exact INV_updateChunk _ _ _ hcg
          · exact ih _ _ hcg

theorem ProcessGenerationQueue_inv (s : AVoxelWorldManager) (h : ChunkStoreInvariant s) :
    ChunkStoreInvariant s.ProcessGenerationQueue := by
  unfold AVoxelWorldManager.ProcessGenerationQueue
  split
  · exact h
  · exact processGenLoop_inv _ _ _ h

theorem INV_queueNeighbor (s : AVoxelWorldManager) (c : FChunkCoord)
    (h : ChunkStoreInvariant s) :
    ChunkStoreInvariant (AVoxelWorldManager.queueNeighbor s c) := by
  unfold AVoxelWorldManager.queueNeighbor
  split
  · exact INV_addMesh _ _ h
  · exact h

theorem INV_boundaryQueueX (s : AVoxelWorldManager) (cc : FChunkCoord) (lx : ℤ)
    (h : ChunkStoreInvariant s) :
    ChunkStoreInvariant (AVoxelWorldManager.boundaryQueueX s cc lx) := by
  unfold AVoxelWorldManager.boundaryQueueX
  split
  · exact INV_queueNeighbor _ _ h
  · split
    · exact INV_queueNeighbor _ _ h
    · exact h

theorem INV_boundaryQueueY (s : AVoxelWorldManager) (cc : FChunkCoord) (ly : ℤ)
    (h : ChunkStoreInvariant s) :
    ChunkStoreInvariant (AVoxelWorldManager.boundaryQueueY s cc ly) := by
  unfold AVoxelWorldManager.boundaryQueueY
  split
  · exact INV_queueNeighbor _ _ h
  · split
    · exact INV_queueNeighbor _ _ h
    · exact h

theorem INV_boundaryQueueZ (s : AVoxelWorldManager) (cc : FChunkCoord) (lz : ℤ)
    (h : ChunkStoreInvariant s) :
    ChunkStoreInvariant (AVoxelWorldManager.boundaryQueueZ s cc lz) := by
  unfold AVoxelWorldManager.boundaryQueueZ
  split
  · exact INV_queueNeighbor _ _ h
  · split
    · exact INV_queueNeighbor _ _ h
    · exact h

theorem SetVoxelAtWorldPosition_inv (s : AVoxelWorldManager) (p : FVector) (v : FVoxel)
    (h : ChunkStoreInvariant s) : ChunkStoreInvariant (s.SetVoxelAtWorldPosition p v) := by
  unfold AVoxelWorldManager.SetVoxelAtWorldPosition
  dsimp only
  split
  · exact h
  · split
    · exact INV_boundaryQueueZ _ _ _ (INV_boundaryQueueY _ _ _ (INV_boundaryQueueX _ _ _
        (INV_addMesh _ _ (INV_updateChunk _ _ _ h))))
    · exact h

theorem UpdateChunkLODs_inv (s : AVoxelWorldManager) (h : ChunkStoreInvariant s) :
    ChunkStoreInvariant s.UpdateChunkLODs := by
  unfold AVoxelWorldManager.UpdateChunkLODs
  refine foldl_inv_generic _ _ ?_ _ h
  intro t b ht
  dsimp only
  split
  · apply INV_addMesh
    exact INV_updateChunk _ _ _ ht
  · exact ht

theorem UpdateChunkCollisions_inv (s : AVoxelWorldManager) (h : ChunkStoreInvariant s) :
    ChunkStoreInvariant s.UpdateChunkCollisions := by
  unfold AVoxelWorldManager.UpdateChunkCollisions
  refine foldl_inv_generic _ _ ?_ _ h
  intro t b ht
  dsimp only
  split
  · split
    · apply INV_addMesh
      exact INV_updateChunk _ _ _ ht
    · exact INV_updateChunk _ _ _ ht
  · exact ht

/-- C8: the chunk-store invariant — no coordinate simultaneously in the
loaded map and the generation queue, no duplicate in the generation queue,
no duplicate in the mesh build queue — is preserved by every main-thread
operation: UpdateChunkLoading, ProcessGenerationQueue, CreateOrGetChunk (at
its call sites the coordinate was just popped from the generation queue, so
it is not queued), RecycleChunk, SetVoxelAtWorldPosition, UpdateChunkLODs
and UpdateChunkCollisions. -/
theorem C8_chunk_store_invariant (s : AVoxelWorldManager) (h : ChunkStoreInvariant s) :
    ChunkStoreInvariant s.UpdateChunkLoading ∧
      ChunkStoreInvariant s.ProcessGenerationQueue ∧
      (∀ c : FChunkCoord, c ∉ s.ChunkGenerationQueue →
        ChunkStoreInvariant (s.CreateOrGetChunk c).1) ∧
      (∀ c : FChunkCoord, ChunkStoreInvariant (s.RecycleChunk c)) ∧
      (∀ (p : FVector) (v : FVoxel), ChunkStoreInvariant (s.SetVoxelAtWorldPosition p v)) ∧
      ChunkStoreInvariant s.UpdateChunkLODs ∧
      ChunkStoreInvariant s.UpdateChunkCollisions :=
  ⟨UpdateChunkLoading_inv s h, ProcessGenerationQueue_inv s h,
    fun c hc => CreateOrGetChunk_inv s c h hc,
    fun c => RecycleChunk_inv s c h,
    fun p v => SetVoxelAtWorldPosition_inv s p v h,
    UpdateChunkLODs_inv s h, UpdateChunkCollisions_inv s h⟩

/-- Witness for C8_chunk_store_invariant: the empty manager satisfies the
invariant, so all seven operations preserve it there. -/
theorem C8_chunk_store_invariant_witness :
    ChunkStoreInvariant emptyManager.UpdateChunkLoading ∧
      ChunkStoreInvariant emptyManager.ProcessGenerationQueue ∧
      (∀ c : FChunkCoord, c ∉ emptyManager.ChunkGenerationQueue →
        ChunkStoreInvariant (emptyManager.CreateOrGetChunk c).1) ∧
      (∀ c : FChunkCoord, ChunkStoreInvariant (emptyManager.RecycleChunk c)) ∧
      (∀ (p : FVector) (v : FVoxel),
        ChunkStoreInvariant (emptyManager.SetVoxelAtWorldPosition p v)) ∧
      ChunkStoreInvariant emptyManager.UpdateChunkLODs ∧
      ChunkStoreInvariant emptyManager.UpdateChunkCollisions :=
  C8_chunk_store_invariant emptyManager
    ⟨fun p hp => absurd hp (List.not_mem_nil p), List.nodup_nil, List.nodup_nil⟩

/-! ### Claim C9: greedy meshing of a uniformly solid chunk -/

namespace FVoxelGreedyMesher

/-- growWidth never shrinks below its starting width. -/
theorem growWidth_ge (N : ℕ) (mask : ℕ → ℕ → Bool) (tys : ℕ → ℕ → EVoxelType)
    (ct : EVoxelType) (u v : ℕ) :
    ∀ fuel w, w ≤ growWidth fuel N mask tys ct u v w := by
  intro fuel
  induction fuel with
  | zero => intro w; exact le_refl w
  | succ n ih =>
    intro w
    rw [growWidth]
    split
    · exact le_trans (Nat.le_succ w) (ih (w + 1))
    · exact le_refl w

theorem AddQuad_lengths (md : FVoxelMeshData) (P DU DV : FVector) (W H : ℕ)
    (Nrm : FVector) (t : EVoxelType) :
    (AddQuad md P DU DV W H Nrm t).Vertices.length = md.Vertices.length + 4 ∧
      (AddQuad md P DU DV W H Nrm t).Triangles.length = md.Triangles.length + 6 := by
  unfold AddQuad
  dsimp only
  constructor <;> simp

theorem maskAt_front_invisible (gm : FVoxelGreedyMesher) (m : EVoxelType)
    (hopq : (FVoxel.make m).IsTransparent = false) (axis D u v : ℕ)
    (hD : D + 1 < gm.ChunkSize) :
    maskAt gm (fun _ => FVoxel.make m) (fun _ _ _ => FVoxel.make EVoxelType.Air)
      axis false D u v = (false, EVoxelType.Air) := by
  unfold maskAt
  simp only [Bool.false_eq_true, if_false]
  rw [if_pos (show (0:ℤ) ≤ (D:ℤ) + 1 ∧ (D:ℤ) + 1 < (gm.ChunkSize:ℤ) by
    constructor <;> omega)]
  rw [if_neg (show ¬((FVoxel.make m).IsSolid = true ∧ (FVoxel.make m).IsTransparent = true) from
    fun hc => by rw [hopq] at hc; exact absurd hc.2 (by simp))]

theorem maskAt_front_visible (gm : FVoxelGreedyMesher) (m : EVoxelType)
    (hsolid : (FVoxel.make m).IsSolid = true) (axis D u v : ℕ)
    (hD : ¬(D + 1 < gm.ChunkSize)) :
    maskAt gm (fun _ => FVoxel.make m) (fun _ _ _ => FVoxel.make EVoxelType.Air)
      axis false D u v = (true, m) := by
  unfold maskAt
  simp only [Bool.false_eq_true, if_false]
  rw [if_neg (show ¬((0:ℤ) ≤ (D:ℤ) + 1 ∧ (D:ℤ) + 1 < (gm.ChunkSize:ℤ)) from
    fun hc => hD (by omega))]
  rw [if_pos (show (FVoxel.make m).IsSolid = true ∧
      (FVoxel.make EVoxelType.Air).IsTransparent = true from ⟨hsolid, by decide⟩)]
  rfl

theorem maskAt_back_visible (gm : FVoxelGreedyMesher) (m : EVoxelType)
    (hsolid : (FVoxel.make m).IsSolid = true) (axis u v : ℕ) :
    maskAt gm (fun _ => FVoxel.make m) (fun _ _ _ => FVoxel.make EVoxelType.Air)
      axis true 0 u v = (true, m) := by
  unfold maskAt
  simp only [eq_self_iff_true, if_true, Nat.cast_zero]
  rw [if_neg (show ¬((0:ℤ) ≤ 0 + -1 ∧ (0:ℤ) + -1 < (gm.ChunkSize:ℤ)) from
    fun hc => by omega)]
  rw [if_pos (show (FVoxel.make m).IsSolid = true ∧
      (FVoxel.make EVoxelType.Air).IsTransparent = true from ⟨hsolid, by decide⟩)]
  rfl

theorem maskAt_back_invisible (gm : FVoxelGreedyMesher) (m : EVoxelType)
    (hopq : (FVoxel.make m).IsTransparent = false) (axis D u v : ℕ)
    (hD1 : 1 ≤ D) (hD2 : D < gm.ChunkSize) :
    maskAt gm (fun _ => FVoxel.make m) (fun _ _ _ => FVoxel.make EVoxelType.Air)
      axis true D u v = (false, EVoxelType.Air) := by
  unfold maskAt
  simp only [eq_self_iff_true, if_true]
  rw [if_pos (show (0:ℤ) ≤ (D:ℤ) + -1 ∧ (D:ℤ) + -1 < (gm.ChunkSize:ℤ) by
    constructor <;> omega)]
  rw [if_neg (show ¬((FVoxel.make m).IsSolid = true ∧ (FVoxel.make m).IsTransparent = true) from
    fun hc => by rw [hopq] at hc; exact absurd hc.2 (by simp))]

theorem growWidth_full (N : ℕ) (mask : ℕ → ℕ → Bool) (tys : ℕ → ℕ → EVoxelType)
    (m : EVoxelType) (v : ℕ) (hv : v < N)
    (hm : ∀ a b, a < N → b < N → mask a b = true)
    (ht : ∀ a b, a < N → b < N → tys a b = m) :
    ∀ fuel u w, N ≤ fuel + (u + w) → u + w ≤ N →
      growWidth fuel N mask tys m u v w = N - u := by
  intro fuel
  induction fuel with
  | zero =>
    intro u w h1 h2
    rw [growWidth]
    omega
  | succ n ih =>
    intro u w h1 h2
    rw [growWidth]
    by_cases hcond : u + w < N
    · rw [if_pos ⟨hcond, hm _ _ (by omega) hv, ht _ _ (by omega) hv⟩]
      exact ih u (w + 1) (by omega) (by omega)
    · rw [if_neg (fun hc => hcond hc.1)]
      omega

theorem rowMatches_full (N : ℕ) (mask : ℕ → ℕ → Bool) (tys : ℕ → ℕ → EVoxelType)
    (m : EVoxelType) (u w vh : ℕ) (hvh : vh < N) (huw : u + w ≤ N)
    (hm : ∀ a b, a < N → b < N → mask a b = true)
    (ht : ∀ a b, a < N → b < N → tys a b = m) :
    rowMatches mask tys m u vh w = true := by
  unfold rowMatches
  rw [List.all_eq_true]
  intro i hi
  have hiw : i < w := List.mem_range.mp hi
  rw [hm (u + i) vh (by omega) hvh, ht (u + i) vh (by omega) hvh]
  simp

theorem growHeight_full (N : ℕ) (mask : ℕ → ℕ → Bool) (tys : ℕ → ℕ → EVoxelType)
    (m : EVoxelType) (w : ℕ) (hw : w ≤ N)
    (hm : ∀ a b, a < N → b < N → mask a b = true)
    (ht : ∀ a b, a < N → b < N → tys a b = m) :
    ∀ fuel v h, N ≤ fuel + (v + h) → v + h ≤ N →
      growHeight fuel N mask tys m 0 v w h = N - v := by
  intro fuel
  induction fuel with
  | zero =>
    intro v h h1 h2
    rw [growHeight]
    omega
  | succ n ih =>
    intro v h h1 h2
    rw [growHeight]
    by_cases hcond : v + h < N
    · rw [if_pos ⟨hcond, rowMatches_full N mask tys m 0 w (v + h) hcond (by omega) hm ht⟩]
      exact ih v (h + 1) (by omega) (by omega)
    · rw [if_neg (fun hc => hcond hc.1)]
      omega

theorem processRow_end (gm : FVoxelGreedyMesher) (axis : ℕ) (bf : Bool) (D : ℕ)
    (tys : ℕ → ℕ → EVoxelType) (v : ℕ) (mask : ℕ → ℕ → Bool) (md : FVoxelMeshData)
    (u : ℕ) (hu : ¬u < gm.ChunkSize) :
    ∀ fuel, processRow gm axis bf D tys v fuel mask md u = (mask, md) := by
  intro fuel
  cases fuel with
  | zero => rfl
  | succ n =>
    rw [processRow]
    dsimp only
    rw [if_neg hu]

theorem processRow_empty (gm : FVoxelGreedyMesher) (axis : ℕ) (bf : Bool) (D : ℕ)
    (tys : ℕ → ℕ → EVoxelType) (v : ℕ) (mask : ℕ → ℕ → Bool) (md : FVoxelMeshData)
    (hv : ∀ a, a < gm.ChunkSize → mask a v = false) :
    ∀ fuel u, processRow gm axis bf D tys v fuel mask md u = (mask, md) := by
  intro fuel
  induction fuel with
  | zero => intro u; rfl
  | succ n ih =>
    intro u
    rw [processRow]
    dsimp only
    by_cases hu : u < gm.ChunkSize
    · rw [if_pos hu, hv u hu]
      rw [if_neg (show ¬(false = true) by simp)]
      exact ih (u + 1)
    · rw [if_neg hu]

theorem processRow_full (gm : FVoxelGreedyMesher) (axis : ℕ) (bf : Bool) (D : ℕ)
    (mask : ℕ → ℕ → Bool) (tys : ℕ → ℕ → EVoxelType) (m : EVoxelType)
    (md : FVoxelMeshData) (hN : 1 ≤ gm.ChunkSize)
    (hm : ∀ a b, a < gm.ChunkSize → b < gm.ChunkSize → mask a b = true)
    (ht : ∀ a b, a < gm.ChunkSize → b < gm.ChunkSize → tys a b = m) :
    ∃ md', processRow gm axis bf D tys 0 gm.ChunkSize mask md 0 =
        (clearRect mask 0 0 gm.ChunkSize gm.ChunkSize, md') ∧
      md'.Vertices.length = md.Vertices.length + 4 ∧
      md'.Triangles.length = md.Triangles.length + 6 := by
  obtain ⟨n, hn⟩ : ∃ n, gm.ChunkSize = n + 1 := ⟨gm.ChunkSize - 1, by omega⟩
  rw [show processRow gm axis bf D tys 0 gm.ChunkSize mask md 0 =
    processRow gm axis bf D tys 0 (n + 1) mask md 0 from by rw [hn]]
  rw [processRow]
  dsimp only
  rw [if_pos (show 0 < gm.ChunkSize by omega)]
  rw [hm 0 0 (by omega) (by omega)]
  rw [if_pos (rfl : (true : Bool) = true)]
  rw [ht 0 0 (by omega) (by omega)]
  rw [growWidth_full gm.ChunkSize mask tys m 0 (by omega) hm ht gm.ChunkSize 0 1 (by omega)
    (by omega)]
  rw [Nat.sub_zero]
  rw [growHeight_full gm.ChunkSize mask tys m gm.ChunkSize (le_refl _) hm ht gm.ChunkSize 0 1
    (by omega) (by omega)]
  rw [Nat.sub_zero]
  rw [Nat.zero_add]
  rw [processRow_end gm axis bf D tys 0 _ _ gm.ChunkSize (by omega) n]
  refine ⟨_, rfl, ?_, ?_⟩
  · split
    · exact (AddQuad_lengths _ _ _ _ _ _ _ _).1
    · exact (AddQuad_lengths _ _ _ _ _ _ _ _).1
  · split
    · exact (AddQuad_lengths _ _ _ _ _ _ _ _).2
    · exact (AddQuad_lengths _ _ _ _ _ _ _ _).2

end FVoxelGreedyMesher

theorem foldl_fixed {α β : Type _} (f : α → β → α) (st : α) :
    ∀ l : List β, (∀ b ∈ l, f st b = st) → l.foldl f st = st := by
  intro l
  induction l with
  | nil => intro h; rfl
  | cons a t ih =>
    intro h
    rw [List.foldl_cons, h a (List.mem_cons_self a t)]
    exact ih fun b hb => h b (List.mem_cons_of_mem a hb)

namespace FVoxelGreedyMesher

theorem innerFold_empty (gm : FVoxelGreedyMesher) (axis : ℕ) (bf : Bool) (D : ℕ)
    (mask : ℕ → ℕ → Bool) (tys : ℕ → ℕ → EVoxelType) (md : FVoxelMeshData)
    (hmask : ∀ a b, mask a b = false) :
    (List.range gm.ChunkSize).foldl
        (fun st v => processRow gm axis bf D tys v gm.ChunkSize st.1 st.2 0) (mask, md) =
      (mask, md) := by
  apply foldl_fixed
  intro b hb
  dsimp only
  exact processRow_empty gm axis bf D tys b mask md (fun a ha => hmask a b) gm.ChunkSize 0

theorem innerFold_full (gm : FVoxelGreedyMesher) (axis : ℕ) (bf : Bool) (D : ℕ)
    (mask : ℕ → ℕ → Bool) (tys : ℕ → ℕ → EVoxelType) (m : EVoxelType)
    (md : FVoxelMeshData) (hN : 1 ≤ gm.ChunkSize)
    (hm : ∀ a b, a < gm.ChunkSize → b < gm.ChunkSize → mask a b = true)
    (ht : ∀ a b, a < gm.ChunkSize → b < gm.ChunkSize → tys a b = m) :
    (((List.range gm.ChunkSize).foldl
        (fun st v => processRow gm axis bf D tys v gm.ChunkSize st.1 st.2 0)
        (mask, md)).2).Vertices.length = md.Vertices.length + 4 ∧
      (((List.range gm.ChunkSize).foldl
        (fun st v => processRow gm axis bf D tys v gm.ChunkSize st.1 st.2 0)
        (mask, md)).2).Triangles.length = md.Triangles.length + 6 := by
  obtain ⟨n, hn⟩ : ∃ n, gm.ChunkSize = n + 1 := ⟨gm.ChunkSize - 1, by omega⟩
  have hsplit : List.range gm.ChunkSize = 0 :: (List.range n).map Nat.succ := by
    rw [hn, List.range_succ_eq_map]
  rw [hsplit, List.foldl_cons]
  obtain ⟨md', heq, hv4, ht6⟩ := processRow_full gm axis bf D mask tys m md hN hm ht
  dsimp only
  rw [heq]
  have hfix : ∀ b ∈ (List.range n).map Nat.succ,
      (fun (st : (ℕ → ℕ → Bool) × FVoxelMeshData) (v : ℕ) =>
          processRow gm axis bf D tys v gm.ChunkSize st.1 st.2 0)
        (clearRect mask 0 0 gm.ChunkSize gm.ChunkSize, md') b =
      (clearRect mask 0 0 gm.ChunkSize gm.ChunkSize, md') := by
    intro b hb
    obtain ⟨i, hi, rfl⟩ := List.mem_map.mp hb
    have hib : i < n := List.mem_range.mp hi
    dsimp only
    apply processRow_empty
    intro a ha
    unfold clearRect
    rw [if_pos ⟨by omega, by omega, by omega, by omega⟩]
  rw [foldl_fixed _ _ _ hfix]
  exact ⟨hv4, ht6⟩

theorem foldl_one_active (g : FVoxelMeshData → ℕ → FVoxelMeshData) (l : List ℕ) (D0 : ℕ)
    (hsplit : ∃ l1 l2, l = l1 ++ D0 :: l2 ∧ (∀ D ∈ l1, ∀ md, g md D = md) ∧
      (∀ D ∈ l2, ∀ md, g md D = md))
    (hact : ∀ md : FVoxelMeshData, (g md D0).Vertices.length = md.Vertices.length + 4 ∧
      (g md D0).Triangles.length = md.Triangles.length + 6) :
    ∀ md : FVoxelMeshData, (l.foldl g md).Vertices.length = md.Vertices.length + 4 ∧
      (l.foldl g md).Triangles.length = md.Triangles.length + 6 := by
  obtain ⟨l1, l2, hl, h1, h2⟩ := hsplit
  subst hl
  intro md
  rw [List.foldl_append]
  rw [foldl_fixed g md l1 fun b hb => h1 b hb md]
  rw [List.foldl_cons]
  rw [foldl_fixed g (g md D0) l2 fun b hb => h2 b hb (g md D0)]
  exact hact md

theorem ProcessSlice_solid_counts (gm : FVoxelGreedyMesher) (m : EVoxelType)
    (hsolid : (FVoxel.make m).IsSolid = true)
    (hopq : (FVoxel.make m).IsTransparent = false)
    (hN : 1 ≤ gm.ChunkSize) (axis : ℕ) (bf : Bool) (md : FVoxelMeshData) :
    (gm.ProcessSlice (fun _ => FVoxel.make m) (fun _ _ _ => FVoxel.make EVoxelType.Air)
        md axis bf).Vertices.length = md.Vertices.length + 4 ∧
      (gm.ProcessSlice (fun _ => FVoxel.make m) (fun _ _ _ => FVoxel.make EVoxelType.Air)
        md axis bf).Triangles.length = md.Triangles.length + 6 := by
  obtain ⟨n, hn⟩ : ∃ n, gm.ChunkSize = n + 1 := ⟨gm.ChunkSize - 1, by omega⟩
  unfold ProcessSlice
  cases bf with
  | false =>
    refine foldl_one_active _ _ n ⟨List.range n, [], by rw [hn, List.range_succ], ?_, ?_⟩ ?_ md
    · intro D hD md0
      have hDn : D < n := List.mem_range.mp hD
      try dsimp only
      rw [innerFold_empty gm axis false D _ _ md0 fun a b => by
        try dsimp only
        rw [maskAt_front_invisible gm m hopq axis D a b (by omega)]]
    · intro D hD md0
      exact absurd hD (List.not_mem_nil D)
    · intro md0
      try dsimp only
      exact innerFold_full gm axis false n _ _ m md0 hN
        (fun a b ha hb => by
          try dsimp only
          rw [maskAt_front_visible gm m hsolid axis n a b (by omega)])
        (fun a b ha hb => by
          try dsimp only
          rw [maskAt_front_visible gm m hsolid axis n a b (by omega)])
  | true =>
    refine foldl_one_active _ _ 0
      ⟨[], (List.range n).map Nat.succ, by rw [hn, List.range_succ_eq_map]; rfl, ?_, ?_⟩ ?_ md
    · intro D hD md0
      exact absurd hD (List.not_mem_nil D)
    · intro D hD md0
      obtain ⟨i, hi, rfl⟩ := List.mem_map.mp hD
      have hin : i < n := List.mem_range.mp hi
      try dsimp only
      rw [innerFold_empty gm axis true i.succ _ _ md0 fun a b => by
        try dsimp only
        rw [maskAt_back_invisible gm m hopq axis i.succ a b (by omega) (by omega)]]
    · intro md0
      try dsimp only
      exact innerFold_full gm axis true 0 _ _ m md0 hN
        (fun a b ha hb => by
          try dsimp only
          rw [maskAt_back_visible gm m hsolid axis a b])
        (fun a b ha hb => by
          try dsimp only
          rw [maskAt_back_visible gm m hsolid axis a b])

end FVoxelGreedyMesher

set_option maxRecDepth 1000000 in
/-- Counterexample to C9 as stated: an all-Ice chunk is fully solid
(FVoxel::IsSolid is true for Ice), yet at chunk size 2 the greedy mesher
emits 12 quads (48 vertices, 24 triangles), not 6, because Ice is also
transparent, so every interior face between two Ice voxels passes the
visibility test CurrentVoxel.IsSolid && NeighborVoxel.IsTransparent. -/
theorem C9_counterexample :
    let gm : FVoxelGreedyMesher := { ChunkSize := 2, VoxelSize := 1 }
    let md := gm.GenerateMesh (fun _ => FVoxel.make EVoxelType.Ice)
      (fun _ _ _ => FVoxel.make EVoxelType.Air)
    (FVoxel.make EVoxelType.Ice).IsSolid = true ∧
      md.Vertices.length = 48 ∧ md.Triangles.length = 72 ∧ ¬md.Vertices.length = 24 := by
  with_unfolding_all decide

/-- C9 (amended): for every chunk size N >= 1 and every uniform voxel
material that is solid and opaque (not transparent), the greedy mesher on
the fully filled chunk, with a neighbour accessor reporting air on all six
outside faces, produces exactly 6 quads: 24 vertices and 36 triangle indices
(12 triangles), one full-face quad per outer face. -/
theorem C9_fully_solid_six_quads (N : ℕ) (hN : 1 ≤ N) (vs : ℚ) (m : EVoxelType)
    (hsolid : (FVoxel.make m).IsSolid = true)
    (hopq : (FVoxel.make m).IsTransparent = false) :
    let gm : FVoxelGreedyMesher := { ChunkSize := N, VoxelSize := vs }
    (gm.GenerateMesh (fun _ => FVoxel.make m)
        (fun _ _ _ => FVoxel.make EVoxelType.Air)).Vertices.length = 24 ∧
      (gm.GenerateMesh (fun _ => FVoxel.make m)
        (fun _ _ _ => FVoxel.make EVoxelType.Air)).Triangles.length = 36 := by
  intro gm
  have hN' : 1 ≤ gm.ChunkSize := hN
  have step := fun (axis : ℕ) (bf : Bool) (md0 : FVoxelMeshData) =>
    FVoxelGreedyMesher.ProcessSlice_solid_counts gm m hsolid hopq hN' axis bf md0
  unfold FVoxelGreedyMesher.GenerateMesh
  dsimp only
  constructor
  · rw [(step 2 true _).1, (step 2 false _).1, (step 1 true _).1, (step 1 false _).1,
      (step 0 true _).1, (step 0 false _).1]
    rfl
  · rw [(step 2 true _).2, (step 2 false _).2, (step 1 true _).2, (step 1 false _).2,
      (step 0 true _).2, (step 0 false _).2]
    rfl

/-- Witness for C9_fully_solid_six_quads: chunk size 2, voxel size 1, Stone. -/
theorem C9_fully_solid_six_quads_witness :
    let gm : FVoxelGreedyMesher := { ChunkSize := 2, VoxelSize := 1 }
    (gm.GenerateMesh (fun _ => FVoxel.make EVoxelType.Stone)
        (fun _ _ _ => FVoxel.make EVoxelType.Air)).Vertices.length = 24 ∧
      (gm.GenerateMesh (fun _ => FVoxel.make EVoxelType.Stone)
        (fun _ _ _ => FVoxel.make EVoxelType.Air)).Triangles.length = 36 :=
  C9_fully_solid_six_quads 2 (by decide) 1 EVoxelType.Stone (by decide) (by decide)
